import Mathlib

/-!
Shallow embedding of `src/spotty/commands/run.py` (class `RunCommand`, method `run`).

The method is a straight-line orchestration over external AWS collaborators
(CloudFormation, EC2, S3).  We embed it as a pure function from the loaded
configuration, the base CloudFormation template and a mocked environment
(the responses the AWS clients would return) to a result consisting of the
ordered trace of externally visible events (output writes, bucket creation,
S3 sync, stack creation) and either a normal outcome or the error the method
raises.  Only the template fields the method touches are modelled; each field
corresponds to one concrete path into the YAML tree that the source mutates.
-/

namespace Spotty

/-- One entry of the `describe_images` response (`res['Images']`); the code
only reads `ImageId`. -/
structure Image where
  imageId : String
deriving DecidableEq

/-- One entry of the `describe_snapshots` response (`res['Snapshots']`); the
code reads `SnapshotId` and `VolumeSize`. -/
structure Snapshot where
  snapshotId : String
  volumeSize : Nat
deriving DecidableEq

/-- One row of the terminal stack description's `Outputs` list. -/
structure OutputRow where
  outputKey : String
  outputValue : String
deriving DecidableEq

/-- The first element of `config['instance']['volumes']`: a dict with key
`snapshotName` required and `size`, `directory`, `deleteOnTermination`
optional (`'size' in volume`, `volume.get('directory', '')`,
`volume.get('deleteOnTermination', False)`). -/
structure VolumeSpec where
  snapshotName : String
  size : Option Nat
  directory : Option String
  deleteOnTermination : Option Bool
deriving DecidableEq

/-- The `docker` section of the instance config; all three keys are read
with `.get(key, '')`. -/
structure DockerConfig where
  image : Option String
  file : Option String
  dataRoot : Option String
deriving DecidableEq

/-- The `config['instance']` section as read at the top of `run`. -/
structure InstanceConfig where
  region : String
  instanceType : String
  keyName : String
  amiName : String
  volumes : List VolumeSpec
  ports : List Nat
  docker : DockerConfig
deriving DecidableEq

/-- The `config['project']` section: `name`, `remoteDir` and `syncFilters`. -/
structure ProjectConfig where
  name : String
  remoteDir : String
  syncFilters : List String
deriving DecidableEq

/-- The full configuration `self._config` as far as `run` reads it
(`project` and `instance` sections). -/
structure Config where
  project : ProjectConfig
  instConf : InstanceConfig
deriving DecidableEq

/-- One entry of the `SecurityGroupIngress` list of the
`InstanceSecurityGroup` resource. -/
structure IngressRule where
  cidrIp : Option String
  cidrIpv6 : Option String
  ipProtocol : String
  fromPort : Nat
  toPort : Nat
deriving DecidableEq

/-- The CloudFormation template tree, restricted to the fields `run`
mutates: the `KeyName` parameter declaration, the `KeyName` key of
`LaunchSpecifications[0]`, the properties and deletion policy of the
`Volume1` resource, the `SnapshotId` property of the `DeleteSnapshot`
resource, and the security-group ingress list. -/
structure Template where
  hasKeyNameParam : Bool
  launchSpecHasKeyName : Bool
  volume1SnapshotId : Option String
  volume1Size : Option Nat
  volume1DeletionPolicy : Option String
  volume1Tags : Option (List (String × String))
  deleteSnapshotSnapshotId : Option String
  ingress : List IngressRule
deriving DecidableEq

/-- The mocked external environment: the responses the AWS collaborators
return during one execution of `run`.  `stackExistsB` is the result of
`stack_exists`, `images`, `snapshots` and `vpcs` are the (already
server-side filtered) responses of `describe_images`, `describe_snapshots`
and `describe_vpcs`, `buckets` is the full account bucket list returned by
`list_buckets` (the name filter is applied locally by `run`), `randomToken`
is the value `random_string(12)` would produce, `pollStatuses` is the
sequence of statuses the polling loop observes, and `stackOutputs` is the
`Outputs` list of the terminal stack description. -/
structure Env where
  stackExistsB : Bool
  images : List Image
  buckets : List String
  snapshots : List Snapshot
  vpcs : List String
  randomToken : String
  pollStatuses : List String
  stackOutputs : List OutputRow
deriving DecidableEq

/-- Externally visible events of one execution, in order: `output.write`
calls, `create_bucket`, `s3_sync` and `create_stack` calls with the
arguments the source passes. -/
inductive Event where
  | wrote (msg : String)
  | createdBucket (name acl region : String)
  | s3Synced (bucket : String)
  | createdStack (stackName : String) (tpl : Template)
      (params : List (String × String)) (onFailure : String)
deriving DecidableEq

/-- Normal terminations of `run`: the guided "image not found" early return,
or completion reporting the instance IP address. -/
inductive RunOutcome where
  | guidedExit
  | completed (ipAddress : String)
deriving DecidableEq

/-- The errors `run` can raise, one constructor per `raise` site (plus the
two `IndexError` sites `volumes[0]` and `[...][0]`, and the case in which
the polling loop never observes a terminal status and blocks forever).
`severalSnapshots` carries the name interpolated into the message: the
source formats `ami_name` there, not `snapshot_name`.
`typeErrorSeveralBuckets` is the error that actually escapes line 70: the
code attempts to raise the ambiguity `ValueError`, but its message formats
`', '.join(buckets)` over the bucket dicts, so `str.join` raises
`TypeError` first and the ambiguity `ValueError` is never constructed. -/
inductive RunError where
  | indexErrorEmptyVolumes
  | stackAlreadyExists (stackName : String)
  | severalImages (amiName : String)
  | typeErrorSeveralBuckets
  | missingVolumeSize (snapshotName : String)
  | severalSnapshots (nameInMessage : String)
  | volumeTooSmall (size snapshotSize : Nat)
  | noDefaultVpc
  | pollNeverReturns
  | missingOutput (stackName : String)
  | stackNotCreated (stackName : String)
deriving DecidableEq

/-- Either a normal outcome or a raised error. -/
inductive Result where
  | ok (o : RunOutcome)
  | err (e : RunError)
deriving DecidableEq

/-- The trace of events performed before termination, and the outcome. -/
structure RunResult where
  events : List Event
  outcome : Result
deriving DecidableEq

/-- Python `s.startswith(p)` on the character sequence. -/
def pyStartsWith (s p : String) : Bool := p.data.isPrefixOf s.data

/-- Python `s.endswith(p)` on the character sequence. -/
def pyEndsWith (s p : String) : Bool := p.data.isSuffixOf s.data

/-- Python `s.lower()` on the character sequence. -/
def pyLower (s : String) : String := String.mk (s.data.map Char.toLower)

/-- Python `s.rstrip(c)` for a single strip character: drop all trailing
occurrences of `c`. -/
def pyRstrip (s : String) (c : Char) : String :=
  String.mk ((s.data.reverse.dropWhile (fun x => x = c)).reverse)

/-- Line 26: `stack_name = 'spotty-instance-%s' % project_name`. -/
def stackNameOf (cfg : Config) : String :=
  "spotty-instance-" ++ cfg.project.name

/-- Line 63: `bucket_prefix = 'spotty-%s' % project_name.lower()`. -/
def bucketPfxOf (cfg : Config) : String :=
  "spotty-" ++ pyLower cfg.project.name

/-- Lines 65-67: the buckets whose name starts with the project bucket
prefix and ends with the region. -/
def filteredBuckets (cfg : Config) (env : Env) : List String :=
  env.buckets.filter
    (fun b => pyStartsWith b (bucketPfxOf cfg) && pyEndsWith b cfg.instConf.region)

/-- Lines 147-152: the IPv4 ingress rule appended for one port. -/
def ipv4Rule (port : Nat) : IngressRule :=
  { cidrIp := some "0.0.0.0/0", cidrIpv6 := none, ipProtocol := "tcp",
    fromPort := port, toPort := port }

/-- Lines 152-157: the IPv6 ingress rule appended for one port. -/
def ipv6Rule (port : Nat) : IngressRule :=
  { cidrIp := none, cidrIpv6 := some "::/0", ipProtocol := "tcp",
    fromPort := port, toPort := port }

/-- Lines 145-157: the rules appended by the loop `for port in set(ports)`,
guarded by `port != 22`.  Python's `set(ports)` is modelled as
deduplication of the list (the claims proved below do not depend on the
iteration order of the set). -/
def portRules (ports : List Nat) : List IngressRule :=
  (ports.dedup.filter (fun p => p ≠ 22)).flatMap (fun p => [ipv4Rule p, ipv6Rule p])

/-- Lines 145-157 applied to the template's ingress list. -/
def expandPorts (tpl : Template) (ports : List Nat) : Template :=
  { tpl with ingress := tpl.ingress ++ portRules ports }

/-- Lines 93-95: delete the `KeyName` parameter declaration and the
`KeyName` key of the launch specification. -/
def removeKeyName (tpl : Template) : Template :=
  { tpl with hasKeyNameParam := false, launchSpecHasKeyName := false }

/-- Lines 160-172: the ordered parameter list passed to `create_stack`,
with the `KeyName` parameter appended only when a key name is configured. -/
def buildParams (cfg : Config) (volume : VolumeSpec)
    (amiId bucketName vpcId : String) : List (String × String) :=
  [("VpcId", vpcId),
   ("InstanceType", cfg.instConf.instanceType),
   ("ImageId", amiId),
   ("VolumeMountDirectory", volume.directory.getD ""),
   ("DockerDataRootDirectory", cfg.instConf.docker.dataRoot.getD ""),
   ("DockerImage", cfg.instConf.docker.image.getD ""),
   ("DockerfilePath", cfg.instConf.docker.file.getD ""),
   ("ProjectS3Bucket", bucketName),
   ("ProjectDirectory", pyRstrip cfg.project.remoteDir '/')]
  ++ (if cfg.instConf.keyName = "" then [] else [("KeyName", cfg.instConf.keyName)])

/-- Line 93-95 wrapper: remove the key pair exactly when no key name is
configured (`if not key_name`, the empty string being falsy). -/
def applyKeyName (keyName : String) (tpl : Template) : Template :=
  if keyName = "" then removeKeyName tpl else tpl

/-- Lines 109-115: bind `Volume1` to the snapshot, and bind the
`DeleteSnapshot` resource to it exactly when `deleteOnTermination` is
false (its default). -/
def bindSnapshot (volume : VolumeSpec) (snap : Snapshot) (tpl : Template) : Template :=
  let tpl2 := { tpl with volume1SnapshotId := some snap.snapshotId }
  if volume.deleteOnTermination.getD false then tpl2
  else { tpl2 with deleteSnapshotSnapshotId := some snap.snapshotId }

/-- Lines 126-128: set the volume size when one is configured. -/
def setVolumeSize (volume : VolumeSpec) (tpl : Template) : Template :=
  match volume.size with
  | some sz => { tpl with volume1Size := some sz }
  | none => tpl

/-- Lines 130-132: set the deletion policy when `deleteOnTermination`. -/
def setDeletionPolicy (volume : VolumeSpec) (tpl : Template) : Template :=
  if volume.deleteOnTermination.getD false
  then { tpl with volume1DeletionPolicy := some "Delete" } else tpl

/-- Line 135: tag the volume with the snapshot name. -/
def setVolumeTags (volume : VolumeSpec) (tpl : Template) : Template :=
  { tpl with volume1Tags := some [("Name", volume.snapshotName)] }

/-- Lines 126-157: the template finally submitted, as a function of the
template produced by the snapshot section. -/
def assembledTemplate (cfg : Config) (volume : VolumeSpec) (tpl : Template) : Template :=
  expandPorts (setVolumeTags volume (setDeletionPolicy volume (setVolumeSize volume tpl)))
    cfg.instConf.ports

/-- Line 73: the name given to a freshly created bucket,
`'-'.join([bucket_prefix, random_string(12), region])`. -/
def newBucketName (cfg : Config) (env : Env) : String :=
  bucketPfxOf cfg ++ "-" ++ env.randomToken ++ "-" ++ cfg.instConf.region

/-- Lines 122-124: the informational grow notice. -/
def growMsg (snapshotSize sz : Nat) : String :=
  "Size of the snapshot will be increased from " ++ toString snapshotSize ++
    "GB to " ++ toString sz ++ "GB."

/-- Line 190: the success report. -/
def successMsg (cfg : Config) : String :=
  "Stack \"" ++ stackNameOf cfg ++ "\" was successfully created."

/-- Line 191: the IP address report. -/
def ipMsg (ip : String) : String :=
  "IP address of the instance: " ++ ip

/-- Modelled from the spec: `wait_for_status_changed` (imported from
`spotty.commands.utils.stack`, which is not part of this repository
snapshot) polls the stack status at a fixed interval, reporting transitions,
until the status differs from the given in-progress status, and returns that
first differing status.  `none` means no such status is ever observed, in
which case the real loop blocks forever. -/
def waitForStatusChanged (statuses : List String) (waitingStatus : String) : Option String :=
  statuses.find? (fun s => s ≠ waitingStatus)

/-- Prepend already performed events to a result. -/
def withEvents (es : List Event) (r : RunResult) : RunResult :=
  { events := es ++ r.events, outcome := r.outcome }

/-- Lines 185-194: wait for the stack status to leave `CREATE_IN_PROGRESS`;
on `CREATE_COMPLETE` extract the `InstanceIpAddress` output (the
comprehension plus `[0]` raises `IndexError` when no row matches) and report
success; on any other status raise. -/
def runPoll (cfg : Config) (env : Env) : RunResult :=
  match waitForStatusChanged env.pollStatuses "CREATE_IN_PROGRESS" with
  | none => { events := [], outcome := .err .pollNeverReturns }
  | some status =>
    if status = "CREATE_COMPLETE" then
      match (env.stackOutputs.filter
              (fun r => r.outputKey = "InstanceIpAddress")).map OutputRow.outputValue with
      | [] => { events := [], outcome := .err (.missingOutput (stackNameOf cfg)) }
      | ip :: _ =>
        { events := [.wrote (successMsg cfg), .wrote (ipMsg ip)],
          outcome := .ok (.completed ip) }
    else { events := [], outcome := .err (.stackNotCreated (stackNameOf cfg)) }

/-- Lines 126-186: set the volume size if requested, set the deletion
policy if `deleteOnTermination`, tag the volume with the snapshot name,
resolve the default VPC (taking the first entry of the response), expand
the port rules, build the parameter list, create the stack and poll.
`growEvents` is the grow notice already written by the snapshot branch. -/
def runAfterSnapshot (cfg : Config) (env : Env) (volume : VolumeSpec)
    (amiId bucketName : String) (tpl : Template) (growEvents : List Event) : RunResult :=
  match env.vpcs with
  | [] => { events := growEvents, outcome := .err .noDefaultVpc }
  | vpcId :: _ =>
    withEvents (growEvents ++
        [.createdStack (stackNameOf cfg) (assembledTemplate cfg volume tpl)
           (buildParams cfg volume amiId bucketName vpcId) "DELETE",
         .wrote "Waiting for the stack to be created..."])
      (runPoll cfg env)

/-- Lines 88-124: conditionally remove the key pair, resolve the snapshot
by name, bind the volume (and, when `deleteOnTermination` is false, the
`DeleteSnapshot` resource) to it, and check the requested size against the
snapshot size, writing the grow notice when strictly larger.  The
several-snapshots error message interpolates `ami_name` exactly as the
source does on line 107. -/
def runAssemble (cfg : Config) (env : Env) (volume : VolumeSpec)
    (amiId bucketName : String) (tpl0 : Template) : RunResult :=
  let tpl1 := applyKeyName cfg.instConf.keyName tpl0
  match env.snapshots with
  | [] =>
    match volume.size with
    | none => { events := [], outcome := .err (.missingVolumeSize volume.snapshotName) }
    | some _ => runAfterSnapshot cfg env volume amiId bucketName tpl1 []
  | [snap] =>
    let tpl3 := bindSnapshot volume snap tpl1
    match volume.size with
    | none => runAfterSnapshot cfg env volume amiId bucketName tpl3 []
    | some sz =>
      if sz < snap.volumeSize then
        { events := [], outcome := .err (.volumeTooSmall sz snap.volumeSize) }
      else
        runAfterSnapshot cfg env volume amiId bucketName tpl3
          (if sz > snap.volumeSize then [.wrote (growMsg snap.volumeSize sz)] else [])
  | _ :: _ :: _ =>
    { events := [], outcome := .err (.severalSnapshots cfg.instConf.amiName) }

/-- Lines 80-86: report, sync the project directory to the bucket, report,
then assemble the template. -/
def runWithBucket (cfg : Config) (env : Env) (volume : VolumeSpec)
    (amiId bucketName : String) (tpl0 : Template) : RunResult :=
  withEvents [.wrote "Syncing the project with S3...",
              .s3Synced bucketName,
              .wrote "Running an instance..."]
    (runAssemble cfg env volume amiId bucketName tpl0)

/-- Lines 63-78: filter the account buckets by prefix and region suffix;
more than one match aborts with the `TypeError` raised at line 70 while
the ambiguity message joins the bucket dicts (see `RunError`), zero
matches creates a fresh `prefix-randomToken-region` bucket with a private
ACL in the region and reports it, one match is reused silently. -/
def runWithImage (cfg : Config) (env : Env) (volume : VolumeSpec)
    (amiId : String) (tpl0 : Template) : RunResult :=
  let bkts := filteredBuckets cfg env
  if bkts.length > 1 then { events := [], outcome := .err .typeErrorSeveralBuckets }
  else
    match bkts with
    | [] =>
      withEvents [.createdBucket (newBucketName cfg env) "private" cfg.instConf.region,
                  .wrote ("Bucket \"" ++ newBucketName cfg env ++ "\" was created.")]
        (runWithBucket cfg env volume amiId (newBucketName cfg env) tpl0)
    | b :: _ => runWithBucket cfg env volume amiId b tpl0

/-- The whole of `RunCommand.run` (lines 23-194): read the configuration
(`volumes[0]` raises `IndexError` on an empty list, before any client is
used), check the stack does not exist, resolve the image (zero matches is
the guided exit, several matches raise), then provision the bucket and
continue.  `tpl0` is the template returned by the template store for
`run_container.yaml`. -/
def run (tpl0 : Template) (cfg : Config) (env : Env) : RunResult :=
  match cfg.instConf.volumes with
  | [] => { events := [], outcome := .err .indexErrorEmptyVolumes }
  | volume :: _ =>
    if env.stackExistsB then
      { events := [], outcome := .err (.stackAlreadyExists (stackNameOf cfg)) }
    else
      match env.images with
      | [] =>
        { events := [.wrote ("Image with Name=" ++ cfg.instConf.amiName ++ " not found."),
                     .wrote "Use \"spotty create-ami\" command to create a Docker AMI."],
          outcome := .ok .guidedExit }
      | [img] => runWithImage cfg env volume img.imageId tpl0
      | _ :: _ :: _ =>
        { events := [], outcome := .err (.severalImages cfg.instConf.amiName) }

/-- Modelled from the spec: the packaged base template `run_container.yaml`
(a data file, not part of this repository snapshot).  Per the spec it
declares the key-pair parameter and references it in the launch
specification, already contains the port-22 ingress rule, and leaves the
volume snapshot binding, size, deletion policy, tags and the
`DeleteSnapshot` binding unset. -/
def baseTemplate : Template :=
  { hasKeyNameParam := true
    launchSpecHasKeyName := true
    volume1SnapshotId := none
    volume1Size := none
    volume1DeletionPolicy := none
    volume1Tags := none
    deleteSnapshotSnapshotId := none
    ingress := [{ cidrIp := some "0.0.0.0/0", cidrIpv6 := none, ipProtocol := "tcp",
                  fromPort := 22, toPort := 22 }] }

/-- Replace the volumes list of a configuration, leaving all else fixed. -/
def withVolumes (cfg : Config) (vs : List VolumeSpec) : Config :=
  { cfg with instConf := { cfg.instConf with volumes := vs } }

/-- Whether an event is a `create_stack` call. -/
def isCreatedStack : Event → Bool
  | .createdStack _ _ _ _ => true
  | _ => false

/-- Whether an event is a `create_bucket` call. -/
def isCreatedBucket : Event → Bool
  | .createdBucket _ _ _ => true
  | _ => false

/-- Concrete docker section used by the example configurations. -/
def exDocker : DockerConfig := { image := some "myimg", file := none, dataRoot := none }

/-- Concrete volume: fresh 100GB volume seeded from no snapshot. -/
def exVolume : VolumeSpec :=
  { snapshotName := "my-snapshot", size := some 100, directory := none,
    deleteOnTermination := none }

/-- Concrete valid configuration used as witness input. -/
def exCfg : Config :=
  { project := { name := "MyProject", remoteDir := "/workspace/project/", syncFilters := [] }
    instConf := { region := "eu-west-1", instanceType := "p2.xlarge", keyName := "key1",
                  amiName := "my-ami", volumes := [exVolume],
                  ports := [22, 8888, 8888, 6006], docker := exDocker } }

/-- Concrete happy-path environment: one image, one matching bucket, no
snapshot, one default VPC, stack creation completes with an IP output. -/
def exEnv : Env :=
  { stackExistsB := false
    images := [{ imageId := "ami-123" }]
    buckets := ["spotty-myproject-abc-eu-west-1"]
    snapshots := []
    vpcs := ["vpc-1"]
    randomToken := "tok"
    pollStatuses := ["CREATE_IN_PROGRESS", "CREATE_COMPLETE"]
    stackOutputs := [{ outputKey := "InstanceIpAddress", outputValue := "1.2.3.4" }] }

/-- Concrete 50GB snapshot. -/
def exSnap : Snapshot := { snapshotId := "snap-1", volumeSize := 50 }

/-- Environment in which the snapshot lookup finds exactly `exSnap`. -/
def exEnvSnap : Env := { exEnv with snapshots := [exSnap] }

/-- Volume requesting 80GB on top of the 50GB snapshot. -/
def exVolGrow : VolumeSpec :=
  { snapshotName := "my-snapshot", size := some 80, directory := none,
    deleteOnTermination := none }

/-- Configuration requesting an 80GB volume. -/
def exCfgGrow : Config := withVolumes exCfg [exVolGrow]

/-- Volume requesting 30GB, smaller than the 50GB snapshot. -/
def exVolShrink : VolumeSpec :=
  { snapshotName := "my-snapshot", size := some 30, directory := none,
    deleteOnTermination := none }

/-- Configuration requesting a 30GB volume. -/
def exCfgShrink : Config := withVolumes exCfg [exVolShrink]

/-- Volume with `deleteOnTermination` set and no explicit size. -/
def exVolDel : VolumeSpec :=
  { snapshotName := "my-snapshot", size := none, directory := none,
    deleteOnTermination := some true }

/-- Configuration with `deleteOnTermination` set. -/
def exCfgDel : Config := withVolumes exCfg [exVolDel]

/-- Volume with neither an explicit size nor `deleteOnTermination`. -/
def exVolKeep : VolumeSpec :=
  { snapshotName := "my-snapshot", size := none, directory := none,
    deleteOnTermination := none }

/-- Configuration whose volume relies on the snapshot size and keeps the
volume on termination. -/
def exCfgKeep : Config := withVolumes exCfg [exVolKeep]

/-- Environment with no default VPC. -/
def exEnvNoVpc : Env := { exEnv with vpcs := [] }

/-- Configuration with no key-pair name. -/
def exCfgNoKey : Config :=
  { exCfg with instConf := { exCfg.instConf with keyName := "" } }

/-- A second volume entry, used only to vary the tail of the volumes list. -/
def exVolTail : VolumeSpec :=
  { snapshotName := "other-snapshot", size := some 7, directory := some "/data",
    deleteOnTermination := some true }

/-- Environment with two default VPCs. -/
def exEnvTwoVpcs : Env := { exEnv with vpcs := ["vpc-1", "vpc-2"] }

/-- Environment with two snapshots matching the name filter. -/
def exEnvTwoSnaps : Env :=
  { exEnv with snapshots := [exSnap, { snapshotId := "snap-2", volumeSize := 50 }] }

/-- Environment whose stack creation ends in `ROLLBACK_COMPLETE`. -/
def exEnvRollback : Env :=
  { exEnv with pollStatuses := ["CREATE_IN_PROGRESS", "ROLLBACK_COMPLETE"] }

/-- Environment whose terminal stack description lacks the IP output. -/
def exEnvNoOutput : Env := { exEnv with stackOutputs := [] }

/-- Environment in which the image lookup finds nothing. -/
def exEnvNoImage : Env := { exEnv with images := [] }

/-- Environment with no matching bucket. -/
def exEnvNoBucket : Env := { exEnv with buckets := [] }

/-- Environment on the run after `exEnvNoBucket`'s run created its bucket. -/
def exEnvSecondRun : Env := { exEnv with buckets := [newBucketName exCfg exEnvNoBucket] }

/-- Environment with two buckets matching the prefix and region filter. -/
def exEnvTwoBuckets : Env :=
  { exEnv with buckets := ["spotty-myproject-a-eu-west-1", "spotty-myproject-b-eu-west-1"] }

theorem withEvents_outcome (es : List Event) (r : RunResult) :
    (withEvents es r).outcome = r.outcome := rfl

theorem withEvents_events (es : List Event) (r : RunResult) :
    (withEvents es r).events = es ++ r.events := rfl

theorem mem_withEvents {e : Event} {es : List Event} {r : RunResult} :
    e ∈ (withEvents es r).events ↔ e ∈ es ∨ e ∈ r.events := by
  simp [withEvents]

theorem take_two_append (l1 l2 : List Char) (h : 2 ≤ l1.length) :
    (l1 ++ l2).take 2 = l1.take 2 := by
  rcases l1 with _ | ⟨a, _ | ⟨b, t⟩⟩
  · simp at h
  · simp at h
  · simp [List.take]

theorem string_ne_of_take2 {a b : String} (h : a.data.take 2 ≠ b.data.take 2) : a ≠ b :=
  fun e => h (by rw [e])

theorem growMsg_take2 (s z : Nat) : (growMsg s z).data.take 2 = ['S', 'i'] := by
  unfold growMsg
  simp only [String.data_append, List.append_assoc]
  rw [take_two_append _ _ (by decide)]
  decide

theorem successMsg_take2 (cfg : Config) : (successMsg cfg).data.take 2 = ['S', 't'] := by
  unfold successMsg
  simp only [String.data_append, List.append_assoc]
  rw [take_two_append _ _ (by decide)]
  decide

theorem ipMsg_take2 (ip : String) : (ipMsg ip).data.take 2 = ['I', 'P'] := by
  unfold ipMsg
  simp only [String.data_append, List.append_assoc]
  rw [take_two_append _ _ (by decide)]
  decide

theorem bucketMsg_take2 (bn : String) :
    ("Bucket \"" ++ bn ++ "\" was created.").data.take 2 = ['B', 'u'] := by
  simp only [String.data_append, List.append_assoc]
  rw [take_two_append _ _ (by decide)]
  decide

theorem growMsg_ne_successMsg (s z : Nat) (cfg : Config) : growMsg s z ≠ successMsg cfg :=
  string_ne_of_take2 (by rw [growMsg_take2, successMsg_take2]; decide)

theorem growMsg_ne_ipMsg (s z : Nat) (ip : String) : growMsg s z ≠ ipMsg ip :=
  string_ne_of_take2 (by rw [growMsg_take2, ipMsg_take2]; decide)

theorem growMsg_ne_bucketMsg (s z : Nat) (bn : String) :
    growMsg s z ≠ "Bucket \"" ++ bn ++ "\" was created." :=
  string_ne_of_take2 (by rw [growMsg_take2, bucketMsg_take2]; decide)

theorem growMsg_ne_syncing (s z : Nat) : growMsg s z ≠ "Syncing the project with S3..." :=
  string_ne_of_take2 (by rw [growMsg_take2]; decide)

theorem growMsg_ne_running (s z : Nat) : growMsg s z ≠ "Running an instance..." :=
  string_ne_of_take2 (by rw [growMsg_take2]; decide)

theorem growMsg_ne_waiting (s z : Nat) :
    growMsg s z ≠ "Waiting for the stack to be created..." :=
  string_ne_of_take2 (by rw [growMsg_take2]; decide)

theorem runPoll_events_char {cfg : Config} {env : Env} {e : Event}
    (h : e ∈ (runPoll cfg env).events) :
    e = .wrote (successMsg cfg) ∨ ∃ ip, e = .wrote (ipMsg ip) := by
  unfold runPoll at h
  split at h
  · simp at h
  · split at h
    · split at h
      · simp at h
      · simp only [List.mem_cons, List.not_mem_nil, or_false] at h
        rcases h with h | h
        · exact Or.inl h
        · exact Or.inr ⟨_, h⟩
    · simp at h

theorem applyKeyName_ingress (kn : String) (tpl : Template) :
    (applyKeyName kn tpl).ingress = tpl.ingress := by
  unfold applyKeyName removeKeyName; split <;> rfl

theorem applyKeyName_volume1DeletionPolicy (kn : String) (tpl : Template) :
    (applyKeyName kn tpl).volume1DeletionPolicy = tpl.volume1DeletionPolicy := by
  unfold applyKeyName removeKeyName; split <;> rfl

theorem applyKeyName_deleteSnapshotSnapshotId (kn : String) (tpl : Template) :
    (applyKeyName kn tpl).deleteSnapshotSnapshotId = tpl.deleteSnapshotSnapshotId := by
  unfold applyKeyName removeKeyName; split <;> rfl

theorem applyKeyName_hasKeyNameParam (kn : String) (tpl : Template) :
    (applyKeyName kn tpl).hasKeyNameParam = (if kn = "" then false else tpl.hasKeyNameParam) := by
  unfold applyKeyName removeKeyName; split <;> simp_all

theorem applyKeyName_launchSpecHasKeyName (kn : String) (tpl : Template) :
    (applyKeyName kn tpl).launchSpecHasKeyName =
      (if kn = "" then false else tpl.launchSpecHasKeyName) := by
  unfold applyKeyName removeKeyName; split <;> simp_all

theorem bindSnapshot_ingress (v : VolumeSpec) (s : Snapshot) (tpl : Template) :
    (bindSnapshot v s tpl).ingress = tpl.ingress := by
  unfold bindSnapshot; split <;> rfl

theorem bindSnapshot_hasKeyNameParam (v : VolumeSpec) (s : Snapshot) (tpl : Template) :
    (bindSnapshot v s tpl).hasKeyNameParam = tpl.hasKeyNameParam := by
  unfold bindSnapshot; split <;> rfl

theorem bindSnapshot_launchSpecHasKeyName (v : VolumeSpec) (s : Snapshot) (tpl : Template) :
    (bindSnapshot v s tpl).launchSpecHasKeyName = tpl.launchSpecHasKeyName := by
  unfold bindSnapshot; split <;> rfl

theorem bindSnapshot_volume1DeletionPolicy (v : VolumeSpec) (s : Snapshot) (tpl : Template) :
    (bindSnapshot v s tpl).volume1DeletionPolicy = tpl.volume1DeletionPolicy := by
  unfold bindSnapshot; split <;> rfl

theorem bindSnapshot_deleteSnapshotSnapshotId (v : VolumeSpec) (s : Snapshot) (tpl : Template) :
    (bindSnapshot v s tpl).deleteSnapshotSnapshotId =
      (if v.deleteOnTermination.getD false then tpl.deleteSnapshotSnapshotId
       else some s.snapshotId) := by
  unfold bindSnapshot; split <;> simp_all

theorem bindSnapshot_volume1SnapshotId (v : VolumeSpec) (s : Snapshot) (tpl : Template) :
    (bindSnapshot v s tpl).volume1SnapshotId = some s.snapshotId := by
  unfold bindSnapshot; split <;> rfl

theorem setVolumeSize_ingress (v : VolumeSpec) (tpl : Template) :
    (setVolumeSize v tpl).ingress = tpl.ingress := by
  unfold setVolumeSize; split <;> rfl

theorem setVolumeSize_hasKeyNameParam (v : VolumeSpec) (tpl : Template) :
    (setVolumeSize v tpl).hasKeyNameParam = tpl.hasKeyNameParam := by
  unfold setVolumeSize; split <;> rfl

theorem setVolumeSize_launchSpecHasKeyName (v : VolumeSpec) (tpl : Template) :
    (setVolumeSize v tpl).launchSpecHasKeyName = tpl.launchSpecHasKeyName := by
  unfold setVolumeSize; split <;> rfl

theorem setVolumeSize_volume1DeletionPolicy (v : VolumeSpec) (tpl : Template) :
    (setVolumeSize v tpl).volume1DeletionPolicy = tpl.volume1DeletionPolicy := by
  unfold setVolumeSize; split <;> rfl

theorem setVolumeSize_deleteSnapshotSnapshotId (v : VolumeSpec) (tpl : Template) :
    (setVolumeSize v tpl).deleteSnapshotSnapshotId = tpl.deleteSnapshotSnapshotId := by
  unfold setVolumeSize; split <;> rfl

theorem setVolumeSize_volume1Size (v : VolumeSpec) (tpl : Template) (sz : Nat)
    (h : v.size = some sz) : (setVolumeSize v tpl).volume1Size = some sz := by
  unfold setVolumeSize; rw [h]

theorem setDeletionPolicy_ingress (v : VolumeSpec) (tpl : Template) :
    (setDeletionPolicy v tpl).ingress = tpl.ingress := by
  unfold setDeletionPolicy; split <;> rfl

theorem setDeletionPolicy_hasKeyNameParam (v : VolumeSpec) (tpl : Template) :
    (setDeletionPolicy v tpl).hasKeyNameParam = tpl.hasKeyNameParam := by
  unfold setDeletionPolicy; split <;> rfl

theorem setDeletionPolicy_launchSpecHasKeyName (v : VolumeSpec) (tpl : Template) :
    (setDeletionPolicy v tpl).launchSpecHasKeyName = tpl.launchSpecHasKeyName := by
  unfold setDeletionPolicy; split <;> rfl

theorem setDeletionPolicy_volume1Size (v : VolumeSpec) (tpl : Template) :
    (setDeletionPolicy v tpl).volume1Size = tpl.volume1Size := by
  unfold setDeletionPolicy; split <;> rfl

theorem setDeletionPolicy_deleteSnapshotSnapshotId (v : VolumeSpec) (tpl : Template) :
    (setDeletionPolicy v tpl).deleteSnapshotSnapshotId = tpl.deleteSnapshotSnapshotId := by
  unfold setDeletionPolicy; split <;> rfl

theorem setDeletionPolicy_volume1DeletionPolicy (v : VolumeSpec) (tpl : Template) :
    (setDeletionPolicy v tpl).volume1DeletionPolicy =
      (if v.deleteOnTermination.getD false then some "Delete"
       else tpl.volume1DeletionPolicy) := by
  unfold setDeletionPolicy; split <;> simp_all

theorem assembledTemplate_ingress (cfg : Config) (v : VolumeSpec) (tpl : Template) :
    (assembledTemplate cfg v tpl).ingress = tpl.ingress ++ portRules cfg.instConf.ports := by
  unfold assembledTemplate expandPorts setVolumeTags
  simp [setDeletionPolicy_ingress, setVolumeSize_ingress]

theorem assembledTemplate_hasKeyNameParam (cfg : Config) (v : VolumeSpec) (tpl : Template) :
    (assembledTemplate cfg v tpl).hasKeyNameParam = tpl.hasKeyNameParam := by
  unfold assembledTemplate expandPorts setVolumeTags
  simp [setDeletionPolicy_hasKeyNameParam, setVolumeSize_hasKeyNameParam]

theorem assembledTemplate_launchSpecHasKeyName (cfg : Config) (v : VolumeSpec) (tpl : Template) :
    (assembledTemplate cfg v tpl).launchSpecHasKeyName = tpl.launchSpecHasKeyName := by
  unfold assembledTemplate expandPorts setVolumeTags
  simp [setDeletionPolicy_launchSpecHasKeyName, setVolumeSize_launchSpecHasKeyName]

theorem assembledTemplate_volume1Size (cfg : Config) (v : VolumeSpec) (tpl : Template)
    (sz : Nat) (h : v.size = some sz) :
    (assembledTemplate cfg v tpl).volume1Size = some sz := by
  unfold assembledTemplate expandPorts setVolumeTags
  simp [setDeletionPolicy_volume1Size, setVolumeSize_volume1Size v tpl sz h]

theorem assembledTemplate_deleteSnapshotSnapshotId (cfg : Config) (v : VolumeSpec)
    (tpl : Template) :
    (assembledTemplate cfg v tpl).deleteSnapshotSnapshotId = tpl.deleteSnapshotSnapshotId := by
  unfold assembledTemplate expandPorts setVolumeTags
  simp [setDeletionPolicy_deleteSnapshotSnapshotId, setVolumeSize_deleteSnapshotSnapshotId]

theorem assembledTemplate_volume1DeletionPolicy (cfg : Config) (v : VolumeSpec)
    (tpl : Template) :
    (assembledTemplate cfg v tpl).volume1DeletionPolicy =
      (if v.deleteOnTermination.getD false then some "Delete"
       else tpl.volume1DeletionPolicy) := by
  unfold assembledTemplate expandPorts setVolumeTags
  simp [setDeletionPolicy_volume1DeletionPolicy, setVolumeSize_volume1DeletionPolicy]

theorem count_pairRules (l : List Nat) (hl : l.Nodup) (p : Nat) :
    (l.flatMap (fun q => [ipv4Rule q, ipv6Rule q])).count (ipv4Rule p) =
        (if p ∈ l then 1 else 0) ∧
      (l.flatMap (fun q => [ipv4Rule q, ipv6Rule q])).count (ipv6Rule p) =
        (if p ∈ l then 1 else 0) := by
  induction l with
  | nil => simp
  | cons a t ih =>
    rcases List.nodup_cons.mp hl with ⟨ha, ht⟩
    obtain ⟨ih4, ih6⟩ := ih ht
    have h46 : ∀ x y : Nat, ipv4Rule x ≠ ipv6Rule y := by
      intro x y hxy
      simp [ipv4Rule, ipv6Rule] at hxy
    have h44 : ∀ x y : Nat, ipv4Rule x = ipv4Rule y ↔ x = y := by
      intro x y; simp [ipv4Rule, ipv6Rule]
    have h66 : ∀ x y : Nat, ipv6Rule x = ipv6Rule y ↔ x = y := by
      intro x y; simp [ipv4Rule, ipv6Rule]
    by_cases hpa : p = a
    · subst hpa
      have c4 : List.count (ipv4Rule p) [ipv4Rule p, ipv6Rule p] = 1 := by
        simp [List.count_cons, h46 p p]
      have c6 : List.count (ipv6Rule p) [ipv4Rule p, ipv6Rule p] = 1 := by
        simp [List.count_cons, (h46 p p).symm]
      constructor
      · rw [List.flatMap_cons, List.count_append, ih4, if_neg ha, c4]
        simp [List.mem_cons]
      · rw [List.flatMap_cons, List.count_append, ih6, if_neg ha, c6]
        simp [List.mem_cons]
    · have c4 : List.count (ipv4Rule p) [ipv4Rule a, ipv6Rule a] = 0 := by
        simp [List.count_cons, (h44 p a).not.mpr hpa, h46 p a]
      have c6 : List.count (ipv6Rule p) [ipv4Rule a, ipv6Rule a] = 0 := by
        simp [List.count_cons, (h66 p a).not.mpr hpa, (h46 a p).symm]
      constructor
      · rw [List.flatMap_cons, List.count_append, ih4, c4]
        by_cases hpt : p ∈ t <;> simp [hpt, List.mem_cons, hpa]
      · rw [List.flatMap_cons, List.count_append, ih6, c6]
        by_cases hpt : p ∈ t <;> simp [hpt, List.mem_cons, hpa]

theorem portRules_count (ports : List Nat) (p : Nat) (hp : p ≠ 22) :
    (portRules ports).count (ipv4Rule p) = (if p ∈ ports then 1 else 0) ∧
      (portRules ports).count (ipv6Rule p) = (if p ∈ ports then 1 else 0) := by
  unfold portRules
  have hl : (ports.dedup.filter (fun q => q ≠ 22)).Nodup := (List.nodup_dedup ports).filter _
  have h := count_pairRules _ hl p
  have hiff : p ∈ ports.dedup.filter (fun q => q ≠ 22) ↔ p ∈ ports := by
    simp [List.mem_filter, List.mem_dedup, hp]
  by_cases hmem : p ∈ ports
  · simpa [hiff.mpr hmem, hmem, hp] using h
  · have hno : p ∉ ports.dedup.filter (fun q => q ≠ 22) := fun hc => hmem (hiff.mp hc)
    simpa [hno, hmem, hp] using h

theorem portRules_no22 (ports : List Nat) :
    ∀ r ∈ portRules ports, r.fromPort ≠ 22 := by
  intro r hr
  unfold portRules at hr
  rcases List.mem_flatMap.mp hr with ⟨q, hq, hrq⟩
  have hq22 : q ≠ 22 := by
    rcases List.mem_filter.mp hq with ⟨-, h22⟩
    simpa using h22
  simp only [List.mem_cons, List.not_mem_nil, or_false] at hrq
  rcases hrq with h | h <;> subst h <;> simpa [ipv4Rule, ipv6Rule]

theorem run_eq_oneBucket {tpl0 : Template} {cfg : Config} {env : Env}
    {volume : VolumeSpec} {vrest : List VolumeSpec} {img : Image} {b : String}
    (hv : cfg.instConf.volumes = volume :: vrest)
    (hse : env.stackExistsB = false)
    (him : env.images = [img])
    (hbk : filteredBuckets cfg env = [b]) :
    run tpl0 cfg env =
      withEvents [.wrote "Syncing the project with S3...", .s3Synced b,
                  .wrote "Running an instance..."]
        (runAssemble cfg env volume img.imageId b tpl0) := by
  unfold run runWithImage runWithBucket
  simp [hv, hse, him, hbk]

theorem run_eq_noBucket {tpl0 : Template} {cfg : Config} {env : Env}
    {volume : VolumeSpec} {vrest : List VolumeSpec} {img : Image}
    (hv : cfg.instConf.volumes = volume :: vrest)
    (hse : env.stackExistsB = false)
    (him : env.images = [img])
    (hbk : filteredBuckets cfg env = []) :
    run tpl0 cfg env =
      withEvents [.createdBucket (newBucketName cfg env) "private" cfg.instConf.region,
                  .wrote ("Bucket \"" ++ newBucketName cfg env ++ "\" was created."),
                  .wrote "Syncing the project with S3...",
                  .s3Synced (newBucketName cfg env),
                  .wrote "Running an instance..."]
        (runAssemble cfg env volume img.imageId (newBucketName cfg env) tpl0) := by
  unfold run runWithImage runWithBucket
  simp [hv, hse, him, hbk, withEvents]

theorem run_eq_manyBuckets {tpl0 : Template} {cfg : Config} {env : Env}
    {volume : VolumeSpec} {vrest : List VolumeSpec} {img : Image} {b b2 : String}
    {brest : List String}
    (hv : cfg.instConf.volumes = volume :: vrest)
    (hse : env.stackExistsB = false)
    (him : env.images = [img])
    (hbk : filteredBuckets cfg env = b :: b2 :: brest) :
    run tpl0 cfg env = { events := [], outcome := .err .typeErrorSeveralBuckets } := by
  unfold run runWithImage
  have hgt : (filteredBuckets cfg env).length > 1 := by
    rw [hbk]; simp [List.length_cons]
  simp [hv, hse, him, hgt]

theorem runAssemble_eq_noSnap {cfg : Config} {env : Env} {volume : VolumeSpec}
    {amiId bn : String} {tpl0 : Template} {sz : Nat}
    (hsn : env.snapshots = [])
    (hsz : volume.size = some sz) :
    runAssemble cfg env volume amiId bn tpl0 =
      runAfterSnapshot cfg env volume amiId bn (applyKeyName cfg.instConf.keyName tpl0) [] := by
  unfold runAssemble
  simp [hsn, hsz]

theorem runAssemble_eq_oneSnap {cfg : Config} {env : Env} {volume : VolumeSpec}
    {amiId bn : String} {tpl0 : Template} {snap : Snapshot} {sz : Nat}
    (hsn : env.snapshots = [snap])
    (hsz : volume.size = some sz) :
    runAssemble cfg env volume amiId bn tpl0 =
      if sz < snap.volumeSize then
        { events := [], outcome := .err (.volumeTooSmall sz snap.volumeSize) }
      else
        runAfterSnapshot cfg env volume amiId bn
          (bindSnapshot volume snap (applyKeyName cfg.instConf.keyName tpl0))
          (if sz > snap.volumeSize then [.wrote (growMsg snap.volumeSize sz)] else []) := by
  unfold runAssemble
  simp [hsn, hsz]

theorem runAssemble_eq_oneSnap_noSize {cfg : Config} {env : Env} {volume : VolumeSpec}
    {amiId bn : String} {tpl0 : Template} {snap : Snapshot}
    (hsn : env.snapshots = [snap])
    (hsz : volume.size = none) :
    runAssemble cfg env volume amiId bn tpl0 =
      runAfterSnapshot cfg env volume amiId bn
        (bindSnapshot volume snap (applyKeyName cfg.instConf.keyName tpl0)) [] := by
  unfold runAssemble
  simp [hsn, hsz]

theorem runAfterSnapshot_eq_vpc {cfg : Config} {env : Env} {volume : VolumeSpec}
    {amiId bn : String} {tpl : Template} {ge : List Event} {vpcId : String}
    {vtail : List String}
    (hvp : env.vpcs = vpcId :: vtail) :
    runAfterSnapshot cfg env volume amiId bn tpl ge =
      withEvents (ge ++
          [.createdStack (stackNameOf cfg) (assembledTemplate cfg volume tpl)
             (buildParams cfg volume amiId bn vpcId) "DELETE",
           .wrote "Waiting for the stack to be created..."])
        (runPoll cfg env) := by
  unfold runAfterSnapshot
  simp [hvp]

theorem runAfterSnapshot_eq_noVpc {cfg : Config} {env : Env} {volume : VolumeSpec}
    {amiId bn : String} {tpl : Template} {ge : List Event}
    (hvp : env.vpcs = []) :
    runAfterSnapshot cfg env volume amiId bn tpl ge =
      { events := ge, outcome := .err .noDefaultVpc } := by
  unfold runAfterSnapshot
  simp [hvp]

theorem runPoll_eq_complete {cfg : Config} {env : Env} {ip : String} {rest : List String}
    (hst : waitForStatusChanged env.pollStatuses "CREATE_IN_PROGRESS" = some "CREATE_COMPLETE")
    (hout : (env.stackOutputs.filter
        (fun r => r.outputKey = "InstanceIpAddress")).map OutputRow.outputValue = ip :: rest) :
    runPoll cfg env =
      { events := [.wrote (successMsg cfg), .wrote (ipMsg ip)],
        outcome := .ok (.completed ip) } := by
  unfold runPoll
  rw [hst]
  simp [hout]

theorem runPoll_eq_complete_noOutput {cfg : Config} {env : Env}
    (hst : waitForStatusChanged env.pollStatuses "CREATE_IN_PROGRESS" = some "CREATE_COMPLETE")
    (hout : (env.stackOutputs.filter
        (fun r => r.outputKey = "InstanceIpAddress")).map OutputRow.outputValue = []) :
    runPoll cfg env = { events := [], outcome := .err (.missingOutput (stackNameOf cfg)) } := by
  unfold runPoll
  rw [hst]
  simp [hout]

theorem runPoll_eq_failed {cfg : Config} {env : Env} {s : String}
    (hst : waitForStatusChanged env.pollStatuses "CREATE_IN_PROGRESS" = some s)
    (hs : s ≠ "CREATE_COMPLETE") :
    runPoll cfg env = { events := [], outcome := .err (.stackNotCreated (stackNameOf cfg)) } := by
  unfold runPoll
  rw [hst]
  simp [hs]

theorem createdStack_mem_runAfterSnapshot {cfg : Config} {env : Env} {volume : VolumeSpec}
    {amiId bn : String} {tpl : Template} {ge : List Event}
    {n : String} {t : Template} {p : List (String × String)} {o : String}
    (hge : ∀ n' t' p' o', Event.createdStack n' t' p' o' ∉ ge)
    (h : Event.createdStack n t p o ∈ (runAfterSnapshot cfg env volume amiId bn tpl ge).events) :
    n = stackNameOf cfg ∧ o = "DELETE" ∧ t = assembledTemplate cfg volume tpl ∧
      ∃ vpcId vtail, env.vpcs = vpcId :: vtail ∧
        p = buildParams cfg volume amiId bn vpcId := by
  rcases hvp : env.vpcs with _ | ⟨vpcId, vtail⟩
  · rw [runAfterSnapshot_eq_noVpc hvp] at h
    exact absurd h (hge n t p o)
  · rw [runAfterSnapshot_eq_vpc hvp] at h
    rcases mem_withEvents.mp h with hm | hm
    · rcases List.mem_append.mp hm with hm | hm
      · exact absurd hm (hge n t p o)
      · simp only [List.mem_cons, List.not_mem_nil, or_false] at hm
        rcases hm with hm | hm
        · obtain ⟨h1, h2, h3, h4⟩ := Event.createdStack.inj hm
          exact ⟨h1, h4, h2, vpcId, vtail, rfl, h3⟩
        · simp at hm
    · rcases runPoll_events_char hm with he | ⟨ip, he⟩ <;> simp at he

theorem createdStack_mem_runAssemble {cfg : Config} {env : Env} {volume : VolumeSpec}
    {amiId bn : String} {tpl0 : Template}
    {n : String} {t : Template} {p : List (String × String)} {o : String}
    (h : Event.createdStack n t p o ∈ (runAssemble cfg env volume amiId bn tpl0).events) :
    n = stackNameOf cfg ∧ o = "DELETE" ∧
      (∃ vpcId vtail, env.vpcs = vpcId :: vtail ∧
        p = buildParams cfg volume amiId bn vpcId) ∧
      ((env.snapshots = [] ∧
          t = assembledTemplate cfg volume (applyKeyName cfg.instConf.keyName tpl0)) ∨
       (∃ snap, env.snapshots = [snap] ∧
          t = assembledTemplate cfg volume
                (bindSnapshot volume snap (applyKeyName cfg.instConf.keyName tpl0)))) := by
  rcases hsn : env.snapshots with _ | ⟨snap, _ | ⟨snap2, srest⟩⟩
  · rcases hsz : volume.size with _ | sz
    · unfold runAssemble at h
      simp [hsn, hsz] at h
    · rw [runAssemble_eq_noSnap hsn hsz] at h
      obtain ⟨h1, h2, h3, h4⟩ := createdStack_mem_runAfterSnapshot (by simp) h
      exact ⟨h1, h2, h4, Or.inl ⟨rfl, h3⟩⟩
  · rcases hsz : volume.size with _ | sz
    · rw [runAssemble_eq_oneSnap_noSize hsn hsz] at h
      obtain ⟨h1, h2, h3, h4⟩ := createdStack_mem_runAfterSnapshot (by simp) h
      exact ⟨h1, h2, h4, Or.inr ⟨snap, rfl, h3⟩⟩
    · rw [runAssemble_eq_oneSnap hsn hsz] at h
      by_cases hlt : sz < snap.volumeSize
      · rw [if_pos hlt] at h
        simp at h
      · rw [if_neg hlt] at h
        have hge : ∀ n' t' p' o', Event.createdStack n' t' p' o' ∉
            (if sz > snap.volumeSize then [Event.wrote (growMsg snap.volumeSize sz)] else []) := by
          intro n' t' p' o'
          split <;> simp
        obtain ⟨h1, h2, h3, h4⟩ := createdStack_mem_runAfterSnapshot hge h
        exact ⟨h1, h2, h4, Or.inr ⟨snap, rfl, h3⟩⟩
  · unfold runAssemble at h
    simp [hsn] at h

theorem createdStack_mem_run {tpl0 : Template} {cfg : Config} {env : Env}
    {n : String} {t : Template} {p : List (String × String)} {o : String}
    (h : Event.createdStack n t p o ∈ (run tpl0 cfg env).events) :
    ∃ volume vrest img bn,
      cfg.instConf.volumes = volume :: vrest ∧ env.images = [img] ∧
      n = stackNameOf cfg ∧ o = "DELETE" ∧
      (∃ vpcId vtail, env.vpcs = vpcId :: vtail ∧
        p = buildParams cfg volume img.imageId bn vpcId) ∧
      ((env.snapshots = [] ∧
          t = assembledTemplate cfg volume (applyKeyName cfg.instConf.keyName tpl0)) ∨
       (∃ snap, env.snapshots = [snap] ∧
          t = assembledTemplate cfg volume
                (bindSnapshot volume snap (applyKeyName cfg.instConf.keyName tpl0)))) := by
  rcases hv : cfg.instConf.volumes with _ | ⟨volume, vrest⟩
  · unfold run at h
    simp [hv] at h
  · rcases hse : env.stackExistsB
    · rcases him : env.images with _ | ⟨img, _ | ⟨img2, irest⟩⟩
      · unfold run at h
        simp [hv, hse, him] at h
      · rcases hbk : filteredBuckets cfg env with _ | ⟨b, _ | ⟨b2, brest⟩⟩
        · rw [run_eq_noBucket hv hse him hbk] at h
          rcases mem_withEvents.mp h with hm | hm
          · simp at hm
          · obtain ⟨h1, h2, h3, h4⟩ := createdStack_mem_runAssemble hm
            exact ⟨volume, vrest, img, newBucketName cfg env, rfl, rfl, h1, h2, h3, h4⟩
        · rw [run_eq_oneBucket hv hse him hbk] at h
          rcases mem_withEvents.mp h with hm | hm
          · simp at hm
          · obtain ⟨h1, h2, h3, h4⟩ := createdStack_mem_runAssemble hm
            exact ⟨volume, vrest, img, b, rfl, rfl, h1, h2, h3, h4⟩
        · rw [run_eq_manyBuckets hv hse him hbk] at h
          simp at h
      · unfold run at h
        simp [hv, hse, him] at h
    · unfold run at h
      simp [hv, hse] at h

/-- C7: for every configuration whose image lookup returns zero matching
images, `run` writes the guidance to build the image first and terminates
without raising an error; its trace consists of exactly the two guidance
writes, so no bucket-creation, file-sync or stack-creation side effect is
performed. -/
theorem image_not_found_guided_exit (tpl0 : Template) (cfg : Config) (env : Env)
    (volume : VolumeSpec) (vrest : List VolumeSpec)
    (hv : cfg.instConf.volumes = volume :: vrest)
    (hse : env.stackExistsB = false)
    (him : env.images = []) :
    (run tpl0 cfg env).outcome = .ok .guidedExit ∧
      (run tpl0 cfg env).events =
        [.wrote ("Image with Name=" ++ cfg.instConf.amiName ++ " not found."),
         .wrote "Use \"spotty create-ami\" command to create a Docker AMI."] := by
  unfold run
  simp [hv, hse, him]

/-- Witness for C7 at the concrete example configuration. -/
theorem image_not_found_guided_exit_witness :
    (run baseTemplate exCfg exEnvNoImage).outcome = .ok .guidedExit ∧
      (run baseTemplate exCfg exEnvNoImage).events =
        [.wrote ("Image with Name=" ++ exCfg.instConf.amiName ++ " not found."),
         .wrote "Use \"spotty create-ami\" command to create a Docker AMI."] :=
  image_not_found_guided_exit baseTemplate exCfg exEnvNoImage exVolume []
    (by decide) (by decide) (by decide)

/-- C10: `run` reads only the first element of the volumes list — replacing
the tail of the volumes list leaves the whole result (trace, assembled
template, parameter list, outcome) unchanged — and on an empty volumes list
it fails with the indexing error having performed no event at all. -/
theorem volumes_head_only (tpl0 : Template) (cfg : Config) (env : Env) :
    (∀ volume vrest1 vrest2,
        run tpl0 (withVolumes cfg (volume :: vrest1)) env =
          run tpl0 (withVolumes cfg (volume :: vrest2)) env) ∧
    (cfg.instConf.volumes = [] →
        (run tpl0 cfg env).outcome = .err .indexErrorEmptyVolumes ∧
        (run tpl0 cfg env).events = []) := by
  constructor
  · intro volume vrest1 vrest2
    obtain ⟨⟨pn, rd, sf⟩, ⟨reg, it, kn, an, vols, prts, dk⟩⟩ := cfg
    simp only [run, withVolumes, runWithImage, runWithBucket, runAssemble, runAfterSnapshot,
      runPoll, buildParams, assembledTemplate, stackNameOf, bucketPfxOf, filteredBuckets,
      newBucketName, expandPorts, portRules, applyKeyName, bindSnapshot, setVolumeSize,
      setDeletionPolicy, setVolumeTags, withEvents, successMsg, ipMsg, growMsg, removeKeyName]
  · intro hv
    unfold run
    simp [hv]

/-- Witness for C10 at the concrete example configuration. -/
theorem volumes_head_only_witness :
    run baseTemplate (withVolumes exCfg [exVolume]) exEnv =
      run baseTemplate (withVolumes exCfg [exVolume, exVolTail]) exEnv :=
  (volumes_head_only baseTemplate exCfg exEnv).1 exVolume [] [exVolTail]

/-- C5 (code bug evidence): with two snapshots matching the configured
snapshot name `my-snapshot`, the run fails fatally before any stack
creation, but the ambiguity error interpolates the AMI name `my-ami`
(line 107 formats `ami_name`), not the snapshot-name filter. -/
theorem snapshot_ambiguity_uses_ami_name :
    (run baseTemplate exCfg exEnvTwoSnaps).outcome = .err (.severalSnapshots "my-ami") ∧
      exVolume.snapshotName = "my-snapshot" ∧
      exCfg.instConf.amiName = "my-ami" ∧
      ("my-ami" : String) ≠ "my-snapshot" ∧
      (run baseTemplate exCfg exEnvTwoSnaps).events.countP isCreatedStack = 0 := by
  decide

/-- C2: every template submitted by `run` has exactly the base ingress list
plus the expanded port rules, and the expansion contains exactly one IPv4
rule and one IPv6 rule per distinct configured port other than 22, nothing
for 22, and never a duplicate for duplicated configuration entries. -/
theorem port_rule_expansion (tpl0 : Template) (cfg : Config) (env : Env) :
    (∀ n t p o, Event.createdStack n t p o ∈ (run tpl0 cfg env).events →
        t.ingress = tpl0.ingress ++ portRules cfg.instConf.ports) ∧
    (∀ p, p ≠ 22 →
        (portRules cfg.instConf.ports).count (ipv4Rule p) =
            (if p ∈ cfg.instConf.ports then 1 else 0) ∧
          (portRules cfg.instConf.ports).count (ipv6Rule p) =
            (if p ∈ cfg.instConf.ports then 1 else 0)) ∧
    (∀ r ∈ portRules cfg.instConf.ports, r.fromPort ≠ 22) := by
  refine ⟨?_, fun p hp => portRules_count _ p hp, portRules_no22 _⟩
  intro n t p o h
  obtain ⟨volume, vrest, img, bn, -, -, -, -, -, hd⟩ := createdStack_mem_run h
  rcases hd with ⟨-, ht⟩ | ⟨snap, -, ht⟩
  · rw [ht, assembledTemplate_ingress, applyKeyName_ingress]
  · rw [ht, assembledTemplate_ingress, bindSnapshot_ingress, applyKeyName_ingress]

/-- Witness for C2: the template actually submitted on the example run has
the expanded ingress, and for ports `[22, 8888, 8888, 6006]` the port 8888
gets exactly one IPv4 and one IPv6 rule while port 9999 gets none. -/
theorem port_rule_expansion_witness :
    (assembledTemplate exCfg exVolume (applyKeyName "key1" baseTemplate)).ingress =
        baseTemplate.ingress ++ portRules exCfg.instConf.ports ∧
      (portRules exCfg.instConf.ports).count (ipv4Rule 8888) =
        (if 8888 ∈ exCfg.instConf.ports then 1 else 0) ∧
      (portRules exCfg.instConf.ports).count (ipv6Rule 8888) =
        (if 8888 ∈ exCfg.instConf.ports then 1 else 0) ∧
      (portRules exCfg.instConf.ports).count (ipv4Rule 9999) =
        (if 9999 ∈ exCfg.instConf.ports then 1 else 0) :=
  ⟨(port_rule_expansion baseTemplate exCfg exEnv).1 (stackNameOf exCfg)
      (assembledTemplate exCfg exVolume (applyKeyName "key1" baseTemplate))
      (buildParams exCfg exVolume "ami-123" "spotty-myproject-abc-eu-west-1" "vpc-1")
      "DELETE" (by decide),
   ((port_rule_expansion baseTemplate exCfg exEnv).2.1 8888 (by decide)).1,
   ((port_rule_expansion baseTemplate exCfg exEnv).2.1 8888 (by decide)).2,
   ((port_rule_expansion baseTemplate exCfg exEnv).2.1 9999 (by decide)).1⟩

theorem runPoll_no_createdBucket {cfg : Config} {env : Env} {nm acl rg : String} :
    Event.createdBucket nm acl rg ∉ (runPoll cfg env).events := by
  intro h
  rcases runPoll_events_char h with he | ⟨ip, he⟩ <;> simp at he

theorem runAfterSnapshot_no_createdBucket {cfg : Config} {env : Env} {volume : VolumeSpec}
    {amiId bn : String} {tpl : Template} {ge : List Event}
    (hge : ∀ nm acl rg, Event.createdBucket nm acl rg ∉ ge) :
    ∀ nm acl rg, Event.createdBucket nm acl rg ∉
      (runAfterSnapshot cfg env volume amiId bn tpl ge).events := by
  intro nm acl rg h
  rcases hvp : env.vpcs with _ | ⟨vpcId, vtail⟩
  · rw [runAfterSnapshot_eq_noVpc hvp] at h
    exact hge nm acl rg h
  · rw [runAfterSnapshot_eq_vpc hvp] at h
    rcases mem_withEvents.mp h with hm | hm
    · rcases List.mem_append.mp hm with hm | hm
      · exact hge nm acl rg hm
      · simp at hm
    · exact runPoll_no_createdBucket hm

theorem runAssemble_no_createdBucket {cfg : Config} {env : Env} {volume : VolumeSpec}
    {amiId bn : String} {tpl0 : Template} :
    ∀ nm acl rg, Event.createdBucket nm acl rg ∉
      (runAssemble cfg env volume amiId bn tpl0).events := by
  intro nm acl rg h
  unfold runAssemble at h
  rcases hsn : env.snapshots with _ | ⟨snap, _ | ⟨s2, srest⟩⟩ <;> simp only [hsn] at h
  · rcases hsz : volume.size with _ | sz <;> simp only [hsz] at h
    · simp at h
    · exact runAfterSnapshot_no_createdBucket (by simp) nm acl rg h
  · rcases hsz : volume.size with _ | sz <;> simp only [hsz] at h
    · exact runAfterSnapshot_no_createdBucket (by simp) nm acl rg h
    · split at h
      · simp at h
      · refine runAfterSnapshot_no_createdBucket ?_ nm acl rg h
        intro nm' acl' rg'
        split <;> simp
  · simp at h

theorem newBucketName_startsWith (cfg : Config) (env : Env) :
    pyStartsWith (newBucketName cfg env) (bucketPfxOf cfg) = true := by
  unfold pyStartsWith newBucketName
  simp only [String.data_append, List.append_assoc, List.isPrefixOf_iff_prefix]
  exact List.prefix_append _ _

theorem newBucketName_endsWith (cfg : Config) (env : Env) :
    pyEndsWith (newBucketName cfg env) cfg.instConf.region = true := by
  unfold pyEndsWith newBucketName
  simp only [String.data_append, List.isSuffixOf_iff_suffix]
  exact List.suffix_append _ _

theorem singleton_filteredBuckets (cfg : Config) (env env2 : Env)
    (hb : env2.buckets = [newBucketName cfg env]) :
    filteredBuckets cfg env2 = [newBucketName cfg env] := by
  unfold filteredBuckets
  rw [hb]
  simp [List.filter, newBucketName_startsWith cfg env, newBucketName_endsWith cfg env]

/-- C3: the submitted template and parameter list are structurally
consistent with respect to the key pair.  With an empty `keyName`, every
submitted template lacks both the `KeyName` parameter declaration and the
launch-specification reference, and the parameter list contains no
`KeyName` entry; with a non-empty `keyName`, both template fields remain as
declared in the base template and the `KeyName` parameter is appended at
the end of the parameter list. -/
theorem key_pair_consistency (tpl0 : Template) (cfg : Config) (env : Env)
    (h0 : tpl0.hasKeyNameParam = true) (h0b : tpl0.launchSpecHasKeyName = true) :
    (cfg.instConf.keyName = "" →
      ∀ n t p o, Event.createdStack n t p o ∈ (run tpl0 cfg env).events →
        t.hasKeyNameParam = false ∧ t.launchSpecHasKeyName = false ∧
          ∀ v, ("KeyName", v) ∉ p) ∧
    (cfg.instConf.keyName ≠ "" →
      ∀ n t p o, Event.createdStack n t p o ∈ (run tpl0 cfg env).events →
        t.hasKeyNameParam = true ∧ t.launchSpecHasKeyName = true ∧
          p.getLast? = some ("KeyName", cfg.instConf.keyName)) := by
  constructor
  · intro hk n t p o h
    obtain ⟨volume, vrest, img, bn, -, -, -, -, ⟨vpcId, vtail, -, hp⟩, hd⟩ :=
      createdStack_mem_run h
    have hts : t.hasKeyNameParam = false ∧ t.launchSpecHasKeyName = false := by
      rcases hd with ⟨-, ht⟩ | ⟨snap, -, ht⟩ <;> rw [ht] <;>
        simp [assembledTemplate_hasKeyNameParam, assembledTemplate_launchSpecHasKeyName,
          bindSnapshot_hasKeyNameParam, bindSnapshot_launchSpecHasKeyName,
          applyKeyName_hasKeyNameParam, applyKeyName_launchSpecHasKeyName, hk]
    refine ⟨hts.1, hts.2, fun v hvp => ?_⟩
    rw [hp] at hvp
    simp [buildParams, hk] at hvp
  · intro hk n t p o h
    obtain ⟨volume, vrest, img, bn, -, -, -, -, ⟨vpcId, vtail, -, hp⟩, hd⟩ :=
      createdStack_mem_run h
    have hts : t.hasKeyNameParam = true ∧ t.launchSpecHasKeyName = true := by
      rcases hd with ⟨-, ht⟩ | ⟨snap, -, ht⟩ <;> rw [ht] <;>
        simp [assembledTemplate_hasKeyNameParam, assembledTemplate_launchSpecHasKeyName,
          bindSnapshot_hasKeyNameParam, bindSnapshot_launchSpecHasKeyName,
          applyKeyName_hasKeyNameParam, applyKeyName_launchSpecHasKeyName, hk, h0, h0b]
    refine ⟨hts.1, hts.2, ?_⟩
    rw [hp]
    simp only [buildParams, if_neg hk]
    exact List.getLast?_concat _

/-- Witness for C3 with a configured key (appended last) and with an empty
key name (no `KeyName` parameter, declarations removed). -/
theorem key_pair_consistency_witness :
    ((assembledTemplate exCfg exVolume (applyKeyName "key1" baseTemplate)).hasKeyNameParam = true ∧
      (buildParams exCfg exVolume "ami-123" "spotty-myproject-abc-eu-west-1" "vpc-1").getLast? =
        some ("KeyName", "key1")) ∧
    ((assembledTemplate exCfgNoKey exVolume (applyKeyName "" baseTemplate)).hasKeyNameParam = false ∧
      ∀ v, ("KeyName", v) ∉ buildParams exCfgNoKey exVolume "ami-123"
        "spotty-myproject-abc-eu-west-1" "vpc-1") :=
  ⟨(fun h => ⟨h.1, h.2.2⟩)
    ((key_pair_consistency baseTemplate exCfg exEnv (by decide) (by decide)).2 (by decide)
      (stackNameOf exCfg)
      (assembledTemplate exCfg exVolume (applyKeyName "key1" baseTemplate))
      (buildParams exCfg exVolume "ami-123" "spotty-myproject-abc-eu-west-1" "vpc-1")
      "DELETE" (by decide)),
   (fun h => ⟨h.1, h.2.2⟩)
    ((key_pair_consistency baseTemplate exCfgNoKey exEnv (by decide) (by decide)).1 (by decide)
      (stackNameOf exCfgNoKey)
      (assembledTemplate exCfgNoKey exVolume (applyKeyName "" baseTemplate))
      (buildParams exCfgNoKey exVolume "ami-123" "spotty-myproject-abc-eu-west-1" "vpc-1")
      "DELETE" (by decide))⟩

/-- Bucket provisioning characterization: zero matching buckets creates a
`prefix-token-region` bucket with a private ACL in the region and reports
it, and that name satisfies the prefix and region filter, so a later run
whose account holds it finds it again; exactly one match is reused
silently (no `create_bucket` call); more than one match aborts before any
event — with the `TypeError` of line 70, not the ambiguity `ValueError`
(see `RunError.typeErrorSeveralBuckets`). -/
theorem bucket_provisioning (tpl0 : Template) (cfg : Config) (env : Env)
    (volume : VolumeSpec) (vrest : List VolumeSpec) (img : Image)
    (hv : cfg.instConf.volumes = volume :: vrest)
    (hse : env.stackExistsB = false)
    (him : env.images = [img]) :
    (filteredBuckets cfg env = [] →
      Event.createdBucket (newBucketName cfg env) "private" cfg.instConf.region ∈
          (run tpl0 cfg env).events ∧
        Event.wrote ("Bucket \"" ++ newBucketName cfg env ++ "\" was created.") ∈
          (run tpl0 cfg env).events ∧
        pyStartsWith (newBucketName cfg env) (bucketPfxOf cfg) = true ∧
        pyEndsWith (newBucketName cfg env) cfg.instConf.region = true) ∧
    (∀ b, filteredBuckets cfg env = [b] →
      (∀ nm acl rg, Event.createdBucket nm acl rg ∉ (run tpl0 cfg env).events) ∧
        Event.s3Synced b ∈ (run tpl0 cfg env).events) ∧
    (∀ b b2 brest, filteredBuckets cfg env = b :: b2 :: brest →
      (run tpl0 cfg env).outcome = .err .typeErrorSeveralBuckets ∧
        (run tpl0 cfg env).events = []) ∧
    (∀ env2 : Env, env2.buckets = [newBucketName cfg env] →
      filteredBuckets cfg env2 = [newBucketName cfg env]) := by
  refine ⟨?_, ?_, ?_, fun env2 hb => singleton_filteredBuckets cfg env env2 hb⟩
  · intro hbk
    rw [run_eq_noBucket hv hse him hbk]
    refine ⟨?_, ?_, newBucketName_startsWith cfg env, newBucketName_endsWith cfg env⟩ <;>
      simp [withEvents]
  · intro b hbk
    rw [run_eq_oneBucket hv hse him hbk]
    constructor
    · intro nm acl rg hmem
      rcases mem_withEvents.mp hmem with hm | hm
      · simp at hm
      · exact runAssemble_no_createdBucket nm acl rg hm
    · simp [withEvents]
  · intro b b2 brest hbk
    rw [run_eq_manyBuckets hv hse him hbk]
    exact ⟨rfl, rfl⟩

/-- Concrete instance of `bucket_provisioning`: creation on an empty
account, reuse on the example account, the TypeError abort with two
matches, and the created name matching the filter on a second run. -/
theorem bucket_provisioning_witness :
    Event.createdBucket (newBucketName exCfg exEnvNoBucket) "private"
        exCfg.instConf.region ∈ (run baseTemplate exCfg exEnvNoBucket).events ∧
      Event.s3Synced "spotty-myproject-abc-eu-west-1" ∈ (run baseTemplate exCfg exEnv).events ∧
      (run baseTemplate exCfg exEnvTwoBuckets).outcome = .err .typeErrorSeveralBuckets ∧
      filteredBuckets exCfg exEnvSecondRun = [newBucketName exCfg exEnvNoBucket] :=
  ⟨((bucket_provisioning baseTemplate exCfg exEnvNoBucket exVolume [] ⟨"ami-123"⟩
      (by decide) (by decide) (by decide)).1 (by decide)).1,
   (((bucket_provisioning baseTemplate exCfg exEnv exVolume [] ⟨"ami-123"⟩
      (by decide) (by decide) (by decide)).2.1 "spotty-myproject-abc-eu-west-1"
      (by decide)).2),
   ((bucket_provisioning baseTemplate exCfg exEnvTwoBuckets exVolume [] ⟨"ami-123"⟩
      (by decide) (by decide) (by decide)).2.2.1 "spotty-myproject-a-eu-west-1"
      "spotty-myproject-b-eu-west-1" [] (by decide)).1,
   ((bucket_provisioning baseTemplate exCfg exEnvNoBucket exVolume [] ⟨"ami-123"⟩
      (by decide) (by decide) (by decide)).2.2.2 exEnvSecondRun (by decide))⟩

/-- C8 (code bug evidence): with two buckets matching the prefix and
region filter the run aborts before any event, but the abort is the
`TypeError` raised at line 70 while `', '.join(buckets)` formats the
ambiguity message over the bucket dicts — the ambiguity `ValueError` is
never constructed, so the run does not fail with an ambiguity error. -/
theorem bucket_ambiguity_type_error :
    filteredBuckets exCfg exEnvTwoBuckets =
        ["spotty-myproject-a-eu-west-1", "spotty-myproject-b-eu-west-1"] ∧
      (run baseTemplate exCfg exEnvTwoBuckets).outcome = .err .typeErrorSeveralBuckets ∧
      (run baseTemplate exCfg exEnvTwoBuckets).events = [] := by
  decide

theorem volume_size_core {cfg : Config} {env : Env} {volume : VolumeSpec}
    {amiId bn : String} {tpl0 : Template} {snap : Snapshot} {sz : Nat}
    {vpcId : String} {vtail : List String} (pre : List Event)
    (hsn : env.snapshots = [snap]) (hsz : volume.size = some sz)
    (hvp : env.vpcs = vpcId :: vtail)
    (hpreG : ∀ s z, Event.wrote (growMsg s z) ∉ pre)
    (hpreS : ∀ n t p o, Event.createdStack n t p o ∉ pre) :
    (sz < snap.volumeSize →
      (withEvents pre (runAssemble cfg env volume amiId bn tpl0)).outcome =
          .err (.volumeTooSmall sz snap.volumeSize) ∧
        ∀ n t p o, Event.createdStack n t p o ∉
          (withEvents pre (runAssemble cfg env volume amiId bn tpl0)).events) ∧
    (snap.volumeSize ≤ sz →
      ∃ t p, Event.createdStack (stackNameOf cfg) t p "DELETE" ∈
          (withEvents pre (runAssemble cfg env volume amiId bn tpl0)).events ∧
        t.volume1Size = some sz) ∧
    (Event.wrote (growMsg snap.volumeSize sz) ∈
        (withEvents pre (runAssemble cfg env volume amiId bn tpl0)).events ↔
      snap.volumeSize < sz) := by
  rw [runAssemble_eq_oneSnap hsn hsz]
  by_cases hlt : sz < snap.volumeSize
  · rw [if_pos hlt]
    refine ⟨fun _ => ⟨rfl, ?_⟩, fun hle => absurd hlt (by omega), ?_⟩
    · intro n t p o hmem
      rcases mem_withEvents.mp hmem with hm | hm
      · exact hpreS n t p o hm
      · simp at hm
    · apply iff_of_false
      · intro hmem
        rcases mem_withEvents.mp hmem with hm | hm
        · exact hpreG _ _ hm
        · simp at hm
      · omega
  · rw [if_neg hlt, runAfterSnapshot_eq_vpc hvp]
    refine ⟨fun hlt2 => absurd hlt2 hlt, fun _ => ?_, ?_⟩
    · refine ⟨assembledTemplate cfg volume
          (bindSnapshot volume snap (applyKeyName cfg.instConf.keyName tpl0)),
        buildParams cfg volume amiId bn vpcId, ?_, ?_⟩
      · apply mem_withEvents.mpr
        right
        apply mem_withEvents.mpr
        left
        simp
      · exact assembledTemplate_volume1Size _ _ _ _ hsz
    · by_cases hgt : sz > snap.volumeSize
      · apply iff_of_true _ hgt
        apply mem_withEvents.mpr
        right
        apply mem_withEvents.mpr
        left
        rw [if_pos hgt]
        simp
      · apply iff_of_false _ hgt
        intro hmem
        rcases mem_withEvents.mp hmem with hm | hm
        · exact hpreG _ _ hm
        · rcases mem_withEvents.mp hm with hm2 | hm2
          · rw [if_neg hgt] at hm2
            simp only [List.nil_append, List.mem_cons, List.not_mem_nil, or_false] at hm2
            rcases hm2 with hm2 | hm2
            · simp at hm2
            · exact growMsg_ne_waiting _ _ (Event.wrote.inj hm2)
          · rcases runPoll_events_char hm2 with he | ⟨ip, he⟩
            · exact growMsg_ne_successMsg _ _ _ (Event.wrote.inj he)
            · exact growMsg_ne_ipMsg _ _ _ (Event.wrote.inj he)

/-- C1: with exactly one matching snapshot and an explicit volume size, a
size smaller than the snapshot fails with the volume-too-small error before
any stack submission; a size at least the snapshot's proceeds to submission
with the submitted template's volume size equal to the requested size; and
the informational grow notice is written if and only if the requested size
strictly exceeds the snapshot size. -/
theorem volume_size_check (tpl0 : Template) (cfg : Config) (env : Env)
    (volume : VolumeSpec) (vrest : List VolumeSpec) (img : Image) (snap : Snapshot) (sz : Nat)
    (hv : cfg.instConf.volumes = volume :: vrest)
    (hse : env.stackExistsB = false)
    (him : env.images = [img])
    (hbkLe : (filteredBuckets cfg env).length ≤ 1)
    (hsn : env.snapshots = [snap])
    (hsz : volume.size = some sz)
    (hvpc : env.vpcs ≠ []) :
    (sz < snap.volumeSize →
      (run tpl0 cfg env).outcome = .err (.volumeTooSmall sz snap.volumeSize) ∧
        ∀ n t p o, Event.createdStack n t p o ∉ (run tpl0 cfg env).events) ∧
    (snap.volumeSize ≤ sz →
      ∃ t p, Event.createdStack (stackNameOf cfg) t p "DELETE" ∈ (run tpl0 cfg env).events ∧
        t.volume1Size = some sz) ∧
    (Event.wrote (growMsg snap.volumeSize sz) ∈ (run tpl0 cfg env).events ↔
      snap.volumeSize < sz) := by
  rcases hvp : env.vpcs with _ | ⟨vpcId, vtail⟩
  · exact absurd hvp hvpc
  · rcases hbk : filteredBuckets cfg env with _ | ⟨b, _ | ⟨b2, brest⟩⟩
    · rw [run_eq_noBucket hv hse him hbk]
      refine volume_size_core _ hsn hsz hvp ?_ ?_
      · intro s z hmem
        simp only [List.mem_cons, List.not_mem_nil, or_false] at hmem
        rcases hmem with h | h | h | h | h
        · simp at h
        · exact growMsg_ne_bucketMsg s z _ (Event.wrote.inj h)
        · exact growMsg_ne_syncing s z (Event.wrote.inj h)
        · simp at h
        · exact growMsg_ne_running s z (Event.wrote.inj h)
      · intro n t p o hmem
        simp at hmem
    · rw [run_eq_oneBucket hv hse him hbk]
      refine volume_size_core _ hsn hsz hvp ?_ ?_
      · intro s z hmem
        simp only [List.mem_cons, List.not_mem_nil, or_false] at hmem
        rcases hmem with h | h | h
        · exact growMsg_ne_syncing s z (Event.wrote.inj h)
        · simp at h
        · exact growMsg_ne_running s z (Event.wrote.inj h)
      · intro n t p o hmem
        simp at hmem
    · rw [hbk] at hbkLe
      simp at hbkLe

/-- Witness for C1: requested size 30 against a 50GB snapshot fails with
the volume-too-small error; requested size 80 submits a template with
volume size 80 and writes the grow notice exactly because 50 < 80. -/
theorem volume_size_check_witness :
    (run baseTemplate exCfgShrink exEnvSnap).outcome = .err (.volumeTooSmall 30 50) ∧
      (∃ t p, Event.createdStack (stackNameOf exCfgGrow) t p "DELETE" ∈
          (run baseTemplate exCfgGrow exEnvSnap).events ∧ t.volume1Size = some 80) ∧
      (Event.wrote (growMsg 50 80) ∈ (run baseTemplate exCfgGrow exEnvSnap).events ↔ 50 < 80) :=
  ⟨((volume_size_check baseTemplate exCfgShrink exEnvSnap exVolShrink [] ⟨"ami-123"⟩ exSnap 30
      (by decide) (by decide) (by decide) (by decide) (by decide) (by decide) (by decide)).1
      (by decide)).1,
   (volume_size_check baseTemplate exCfgGrow exEnvSnap exVolGrow [] ⟨"ami-123"⟩ exSnap 80
      (by decide) (by decide) (by decide) (by decide) (by decide) (by decide) (by decide)).2.1
      (by decide),
   (volume_size_check baseTemplate exCfgGrow exEnvSnap exVolGrow [] ⟨"ami-123"⟩ exSnap 80
      (by decide) (by decide) (by decide) (by decide) (by decide) (by decide) (by decide)).2.2⟩

theorem submit_mem_oneSnap {cfg : Config} {env : Env} {volume : VolumeSpec}
    {amiId bn : String} {tpl0 : Template} {snap : Snapshot} {vpcId : String}
    {vtail : List String} (pre : List Event)
    (hsn : env.snapshots = [snap])
    (hvp : env.vpcs = vpcId :: vtail)
    (hszOk : ∀ sz, volume.size = some sz → ¬sz < snap.volumeSize) :
    Event.createdStack (stackNameOf cfg)
        (assembledTemplate cfg volume
          (bindSnapshot volume snap (applyKeyName cfg.instConf.keyName tpl0)))
        (buildParams cfg volume amiId bn vpcId) "DELETE" ∈
      (withEvents pre (runAssemble cfg env volume amiId bn tpl0)).events := by
  rcases hsz : volume.size with _ | sz
  · rw [runAssemble_eq_oneSnap_noSize hsn hsz, runAfterSnapshot_eq_vpc hvp]
    apply mem_withEvents.mpr
    right
    apply mem_withEvents.mpr
    left
    simp
  · rw [runAssemble_eq_oneSnap hsn hsz, if_neg (hszOk sz hsz), runAfterSnapshot_eq_vpc hvp]
    apply mem_withEvents.mpr
    right
    apply mem_withEvents.mpr
    left
    simp

/-- C9: with exactly one matching snapshot, when `deleteOnTermination` is
false or absent the submitted template binds the `DeleteSnapshot` resource
to the found snapshot's id and leaves the volume's deletion policy unset;
when it is true the volume's deletion policy is set to `Delete` and the
`DeleteSnapshot` resource stays unbound. -/
theorem deletion_policy (tpl0 : Template) (cfg : Config) (env : Env)
    (volume : VolumeSpec) (vrest : List VolumeSpec) (img : Image) (snap : Snapshot)
    (hv : cfg.instConf.volumes = volume :: vrest)
    (hse : env.stackExistsB = false)
    (him : env.images = [img])
    (hbkLe : (filteredBuckets cfg env).length ≤ 1)
    (hsn : env.snapshots = [snap])
    (hvpc : env.vpcs ≠ [])
    (hszOk : ∀ sz, volume.size = some sz → ¬sz < snap.volumeSize)
    (h0 : tpl0.volume1DeletionPolicy = none)
    (h0b : tpl0.deleteSnapshotSnapshotId = none) :
    (volume.deleteOnTermination.getD false = false →
      ∃ t p, Event.createdStack (stackNameOf cfg) t p "DELETE" ∈ (run tpl0 cfg env).events ∧
        t.deleteSnapshotSnapshotId = some snap.snapshotId ∧
        t.volume1DeletionPolicy = none) ∧
    (volume.deleteOnTermination.getD false = true →
      ∃ t p, Event.createdStack (stackNameOf cfg) t p "DELETE" ∈ (run tpl0 cfg env).events ∧
        t.volume1DeletionPolicy = some "Delete" ∧
        t.deleteSnapshotSnapshotId = none) := by
  rcases hvp : env.vpcs with _ | ⟨vpcId, vtail⟩
  · exact absurd hvp hvpc
  · have hfields :
        (assembledTemplate cfg volume
            (bindSnapshot volume snap (applyKeyName cfg.instConf.keyName tpl0))).volume1DeletionPolicy =
          (if volume.deleteOnTermination.getD false then some "Delete" else none) ∧
        (assembledTemplate cfg volume
            (bindSnapshot volume snap (applyKeyName cfg.instConf.keyName tpl0))).deleteSnapshotSnapshotId =
          (if volume.deleteOnTermination.getD false then none else some snap.snapshotId) := by
      constructor
      · rw [assembledTemplate_volume1DeletionPolicy, bindSnapshot_volume1DeletionPolicy,
          applyKeyName_volume1DeletionPolicy, h0]
      · rw [assembledTemplate_deleteSnapshotSnapshotId, bindSnapshot_deleteSnapshotSnapshotId,
          applyKeyName_deleteSnapshotSnapshotId, h0b]
    rcases hbk : filteredBuckets cfg env with _ | ⟨b, _ | ⟨b2, brest⟩⟩
    · rw [run_eq_noBucket hv hse him hbk]
      have hm := @submit_mem_oneSnap cfg env volume img.imageId (newBucketName cfg env)
        tpl0 snap vpcId vtail
        [.createdBucket (newBucketName cfg env) "private" cfg.instConf.region,
         .wrote ("Bucket \"" ++ newBucketName cfg env ++ "\" was created."),
         .wrote "Syncing the project with S3...",
         .s3Synced (newBucketName cfg env),
         .wrote "Running an instance..."] hsn hvp hszOk
      refine ⟨fun hdel => ⟨_, _, hm, ?_, ?_⟩, fun hdel => ⟨_, _, hm, ?_, ?_⟩⟩
      · rw [hfields.2, hdel]; simp
      · rw [hfields.1, hdel]; simp
      · rw [hfields.1, hdel]; simp
      · rw [hfields.2, hdel]; simp
    · rw [run_eq_oneBucket hv hse him hbk]
      have hm := @submit_mem_oneSnap cfg env volume img.imageId b tpl0 snap vpcId vtail
        [.wrote "Syncing the project with S3...", .s3Synced b,
         .wrote "Running an instance..."] hsn hvp hszOk
      refine ⟨fun hdel => ⟨_, _, hm, ?_, ?_⟩, fun hdel => ⟨_, _, hm, ?_, ?_⟩⟩
      · rw [hfields.2, hdel]; simp
      · rw [hfields.1, hdel]; simp
      · rw [hfields.1, hdel]; simp
      · rw [hfields.2, hdel]; simp
    · rw [hbk] at hbkLe
      simp at hbkLe

/-- Witness for C9: with `deleteOnTermination` absent the submitted
template binds `DeleteSnapshot` to `snap-1` and leaves the deletion policy
unset; with `deleteOnTermination = true` the deletion policy is `Delete`
and `DeleteSnapshot` stays unbound. -/
theorem deletion_policy_witness :
    (∃ t p, Event.createdStack (stackNameOf exCfgKeep) t p "DELETE" ∈
        (run baseTemplate exCfgKeep exEnvSnap).events ∧
      t.deleteSnapshotSnapshotId = some "snap-1" ∧ t.volume1DeletionPolicy = none) ∧
    (∃ t p, Event.createdStack (stackNameOf exCfgDel) t p "DELETE" ∈
        (run baseTemplate exCfgDel exEnvSnap).events ∧
      t.volume1DeletionPolicy = some "Delete" ∧ t.deleteSnapshotSnapshotId = none) :=
  ⟨(deletion_policy baseTemplate exCfgKeep exEnvSnap exVolKeep [] ⟨"ami-123"⟩ exSnap
      (by decide) (by decide) (by decide) (by decide) (by decide) (by decide)
      (fun sz h => by simp [exVolKeep] at h) (by decide) (by decide)).1 (by decide),
   (deletion_policy baseTemplate exCfgDel exEnvSnap exVolDel [] ⟨"ami-123"⟩ exSnap
      (by decide) (by decide) (by decide) (by decide) (by decide) (by decide)
      (fun sz h => by simp [exVolDel] at h) (by decide) (by decide)).2 (by decide)⟩

/-- C4 (amended): default-network resolution fails fatally when zero
default networks exist; when more than one default network is returned, no
ambiguity check is made — the first entry of the response is the one whose
id is submitted as the `VpcId` parameter. -/
theorem default_vpc_resolution (tpl0 : Template) (cfg : Config) (env : Env)
    (volume : VolumeSpec) (vrest : List VolumeSpec) (img : Image) (sz : Nat)
    (hv : cfg.instConf.volumes = volume :: vrest)
    (hse : env.stackExistsB = false)
    (him : env.images = [img])
    (hbkLe : (filteredBuckets cfg env).length ≤ 1)
    (hsn : env.snapshots = [])
    (hsz : volume.size = some sz) :
    (env.vpcs = [] → (run tpl0 cfg env).outcome = .err .noDefaultVpc) ∧
    (∀ vpcId vtail, env.vpcs = vpcId :: vtail →
      ∀ n t p o, Event.createdStack n t p o ∈ (run tpl0 cfg env).events →
        ("VpcId", vpcId) ∈ p) := by
  constructor
  · intro hvp
    rcases hbk : filteredBuckets cfg env with _ | ⟨b, _ | ⟨b2, brest⟩⟩
    · rw [run_eq_noBucket hv hse him hbk, runAssemble_eq_noSnap hsn hsz,
        runAfterSnapshot_eq_noVpc hvp]
      rfl
    · rw [run_eq_oneBucket hv hse him hbk, runAssemble_eq_noSnap hsn hsz,
        runAfterSnapshot_eq_noVpc hvp]
      rfl
    · rw [hbk] at hbkLe
      simp at hbkLe
  · intro vpcId vtail hvp n t p o h
    obtain ⟨volume2, vrest2, img2, bn, -, -, -, -, ⟨vpcId2, vtail2, hvp2, hp⟩, -⟩ :=
      createdStack_mem_run h
    rw [hvp] at hvp2
    obtain ⟨h1, -⟩ := List.cons.inj hvp2
    rw [hp, h1, buildParams]
    simp

/-- Witness for C4's amended statement: zero default VPCs fail fatally, and
with two VPCs in the response the first id is the one submitted. -/
theorem default_vpc_resolution_witness :
    (run baseTemplate exCfg exEnvNoVpc).outcome = .err .noDefaultVpc ∧
      ("VpcId", "vpc-1") ∈
        buildParams exCfg exVolume "ami-123" "spotty-myproject-abc-eu-west-1" "vpc-1" :=
  ⟨(default_vpc_resolution baseTemplate exCfg exEnvNoVpc exVolume [] ⟨"ami-123"⟩ 100
      (by decide) (by decide) (by decide) (by decide) (by decide) (by decide)).1 (by decide),
   (default_vpc_resolution baseTemplate exCfg exEnvTwoVpcs exVolume [] ⟨"ami-123"⟩ 100
      (by decide) (by decide) (by decide) (by decide) (by decide) (by decide)).2
      "vpc-1" ["vpc-2"] (by decide) (stackNameOf exCfg)
      (assembledTemplate exCfg exVolume (applyKeyName "key1" baseTemplate))
      (buildParams exCfg exVolume "ami-123" "spotty-myproject-abc-eu-west-1" "vpc-1")
      "DELETE" (by decide)⟩

/-- Counterexample for C4 as stated: with two default VPCs in the response
the run does not fail with any ambiguity error — it completes, submitting
the first VPC id. -/
theorem default_vpc_counterexample :
    exEnvTwoVpcs.vpcs = ["vpc-1", "vpc-2"] ∧
      (run baseTemplate exCfg exEnvTwoVpcs).outcome = .ok (.completed "1.2.3.4") ∧
      Event.createdStack (stackNameOf exCfg)
          (assembledTemplate exCfg exVolume (applyKeyName "key1" baseTemplate))
          (buildParams exCfg exVolume "ami-123" "spotty-myproject-abc-eu-west-1" "vpc-1")
          "DELETE" ∈ (run baseTemplate exCfg exEnvTwoVpcs).events := by
  decide

theorem waitForStatusChanged_first : ∀ (pre post : List String) (s w : String),
    (∀ x ∈ pre, x = w) → s ≠ w →
    waitForStatusChanged (pre ++ s :: post) w = some s
  | [], post, s, w, _, hs => by
    simp [waitForStatusChanged, List.find?_cons_of_pos, hs]
  | a :: t, post, s, w, hpre, hs => by
    have ha : a = w := hpre a (List.mem_cons_self a t)
    have ih := waitForStatusChanged_first t post s w
      (fun x hx => hpre x (List.mem_cons_of_mem a hx)) hs
    unfold waitForStatusChanged at ih ⊢
    rw [List.cons_append, List.find?_cons_of_neg _ (by simp [ha]), ih]

theorem runPoll_countP_zero {cfg : Config} {env : Env} :
    (runPoll cfg env).events.countP isCreatedStack = 0 := by
  rw [List.countP_eq_zero]
  intro e he
  rcases runPoll_events_char he with he2 | ⟨ip, he2⟩ <;> subst he2 <;> simp [isCreatedStack]

theorem poll_core {cfg : Config} {env : Env} {volume : VolumeSpec} {amiId bn : String}
    {tpl0 : Template} {sz : Nat} {vpcId : String} {vtail : List String} (pre : List Event)
    (hsn : env.snapshots = []) (hsz : volume.size = some sz)
    (hvp : env.vpcs = vpcId :: vtail)
    (hpreCount : pre.countP isCreatedStack = 0) :
    (waitForStatusChanged env.pollStatuses "CREATE_IN_PROGRESS" = some "CREATE_COMPLETE" →
      (∀ ip rest, (env.stackOutputs.filter
          (fun r => r.outputKey = "InstanceIpAddress")).map OutputRow.outputValue = ip :: rest →
        (withEvents pre (runAssemble cfg env volume amiId bn tpl0)).outcome =
            .ok (.completed ip) ∧
          Event.wrote (successMsg cfg) ∈
            (withEvents pre (runAssemble cfg env volume amiId bn tpl0)).events ∧
          Event.wrote (ipMsg ip) ∈
            (withEvents pre (runAssemble cfg env volume amiId bn tpl0)).events) ∧
      ((env.stackOutputs.filter
          (fun r => r.outputKey = "InstanceIpAddress")).map OutputRow.outputValue = [] →
        (withEvents pre (runAssemble cfg env volume amiId bn tpl0)).outcome =
          .err (.missingOutput (stackNameOf cfg)))) ∧
    (∀ s, waitForStatusChanged env.pollStatuses "CREATE_IN_PROGRESS" = some s →
      s ≠ "CREATE_COMPLETE" →
      (withEvents pre (runAssemble cfg env volume amiId bn tpl0)).outcome =
        .err (.stackNotCreated (stackNameOf cfg))) ∧
    (withEvents pre (runAssemble cfg env volume amiId bn tpl0)).events.countP
        isCreatedStack = 1 := by
  rw [runAssemble_eq_noSnap hsn hsz, runAfterSnapshot_eq_vpc hvp]
  refine ⟨fun hst => ⟨fun ip rest hout => ?_, fun hout => ?_⟩, fun s hst hs => ?_, ?_⟩
  · rw [runPoll_eq_complete hst hout]
    exact ⟨rfl, by simp [withEvents], by simp [withEvents]⟩
  · rw [runPoll_eq_complete_noOutput hst hout]
    rfl
  · rw [runPoll_eq_failed hst hs]
    rfl
  · simp only [withEvents, List.countP_append, hpreCount, runPoll_countP_zero,
      List.nil_append, List.countP_cons, List.countP_nil]
    simp [isCreatedStack]

/-- C6 (amended): polling returns exactly the first observed status that
differs from `CREATE_IN_PROGRESS`; when that status is `CREATE_COMPLETE`
the run extracts the `InstanceIpAddress` output and reports the stack name
and the address — the absence of that output being a fatal inconsistency —
while on any other terminal status, `ROLLBACK_COMPLETE` and
`DELETE_COMPLETE` included, the run fails naming the stack; exactly one
`create_stack` call is made, with no local retry. -/
theorem stack_polling (tpl0 : Template) (cfg : Config) (env : Env)
    (volume : VolumeSpec) (vrest : List VolumeSpec) (img : Image) (sz : Nat)
    (hv : cfg.instConf.volumes = volume :: vrest)
    (hse : env.stackExistsB = false)
    (him : env.images = [img])
    (hbkLe : (filteredBuckets cfg env).length ≤ 1)
    (hsn : env.snapshots = [])
    (hsz : volume.size = some sz)
    (hvpc : env.vpcs ≠ []) :
    (∀ pre post s, (∀ x ∈ pre, x = "CREATE_IN_PROGRESS") → s ≠ "CREATE_IN_PROGRESS" →
      waitForStatusChanged (pre ++ s :: post) "CREATE_IN_PROGRESS" = some s) ∧
    (waitForStatusChanged env.pollStatuses "CREATE_IN_PROGRESS" = some "CREATE_COMPLETE" →
      (∀ ip rest, (env.stackOutputs.filter
          (fun r => r.outputKey = "InstanceIpAddress")).map OutputRow.outputValue = ip :: rest →
        (run tpl0 cfg env).outcome = .ok (.completed ip) ∧
          Event.wrote (successMsg cfg) ∈ (run tpl0 cfg env).events ∧
          Event.wrote (ipMsg ip) ∈ (run tpl0 cfg env).events) ∧
      ((env.stackOutputs.filter
          (fun r => r.outputKey = "InstanceIpAddress")).map OutputRow.outputValue = [] →
        (run tpl0 cfg env).outcome = .err (.missingOutput (stackNameOf cfg)))) ∧
    (∀ s, waitForStatusChanged env.pollStatuses "CREATE_IN_PROGRESS" = some s →
      s ≠ "CREATE_COMPLETE" →
      (run tpl0 cfg env).outcome = .err (.stackNotCreated (stackNameOf cfg))) ∧
    (run tpl0 cfg env).events.countP isCreatedStack = 1 := by
  rcases hvp : env.vpcs with _ | ⟨vpcId, vtail⟩
  · exact absurd hvp hvpc
  · rcases hbk : filteredBuckets cfg env with _ | ⟨b, _ | ⟨b2, brest⟩⟩
    · rw [run_eq_noBucket hv hse him hbk]
      have hc := @poll_core cfg env volume img.imageId (newBucketName cfg env)
        tpl0 sz vpcId vtail
        [.createdBucket (newBucketName cfg env) "private" cfg.instConf.region,
         .wrote ("Bucket \"" ++ newBucketName cfg env ++ "\" was created."),
         .wrote "Syncing the project with S3...",
         .s3Synced (newBucketName cfg env),
         .wrote "Running an instance..."] hsn hsz hvp
        (by simp [List.countP_cons, isCreatedStack])
      exact ⟨fun pre post s => waitForStatusChanged_first pre post s _, hc.1, hc.2.1, hc.2.2⟩
    · rw [run_eq_oneBucket hv hse him hbk]
      have hc := @poll_core cfg env volume img.imageId b tpl0 sz vpcId vtail
        [.wrote "Syncing the project with S3...", .s3Synced b,
         .wrote "Running an instance..."] hsn hsz hvp
        (by simp [List.countP_cons, isCreatedStack])
      exact ⟨fun pre post s => waitForStatusChanged_first pre post s _, hc.1, hc.2.1, hc.2.2⟩
    · rw [hbk] at hbkLe
      simp at hbkLe

/-- Witness for C6's amended statement on the concrete runs: completion
reports the IP, a missing output is the fatal inconsistency, a rollback
terminal status fails naming the stack, and exactly one stack creation
happens on the successful run. -/
theorem stack_polling_witness :
    (run baseTemplate exCfg exEnv).outcome = .ok (.completed "1.2.3.4") ∧
      Event.wrote (successMsg exCfg) ∈ (run baseTemplate exCfg exEnv).events ∧
      (run baseTemplate exCfg exEnvNoOutput).outcome =
        .err (.missingOutput (stackNameOf exCfg)) ∧
      (run baseTemplate exCfg exEnvRollback).outcome =
        .err (.stackNotCreated (stackNameOf exCfg)) ∧
      (run baseTemplate exCfg exEnv).events.countP isCreatedStack = 1 :=
  ⟨(((stack_polling baseTemplate exCfg exEnv exVolume [] ⟨"ami-123"⟩ 100
      (by decide) (by decide) (by decide) (by decide) (by decide) (by decide)
      (by decide)).2.1 (by decide)).1 "1.2.3.4" [] (by decide)).1,
   (((stack_polling baseTemplate exCfg exEnv exVolume [] ⟨"ami-123"⟩ 100
      (by decide) (by decide) (by decide) (by decide) (by decide) (by decide)
      (by decide)).2.1 (by decide)).1 "1.2.3.4" [] (by decide)).2.1,
   ((stack_polling baseTemplate exCfg exEnvNoOutput exVolume [] ⟨"ami-123"⟩ 100
      (by decide) (by decide) (by decide) (by decide) (by decide) (by decide)
      (by decide)).2.1 (by decide)).2 (by decide),
   (stack_polling baseTemplate exCfg exEnvRollback exVolume [] ⟨"ami-123"⟩ 100
      (by decide) (by decide) (by decide) (by decide) (by decide) (by decide)
      (by decide)).2.2.1 "ROLLBACK_COMPLETE" (by decide) (by decide),
   (stack_polling baseTemplate exCfg exEnv exVolume [] ⟨"ami-123"⟩ 100
      (by decide) (by decide) (by decide) (by decide) (by decide) (by decide)
      (by decide)).2.2.2⟩

/-- Counterexample for C6 as stated: `ROLLBACK_COMPLETE` is a terminal
status matching `*_COMPLETE`, yet the run fails with the stack-not-created
error instead of extracting the output and reporting the address. -/
theorem stack_polling_counterexample :
    waitForStatusChanged exEnvRollback.pollStatuses "CREATE_IN_PROGRESS" =
        some "ROLLBACK_COMPLETE" ∧
      pyEndsWith "ROLLBACK_COMPLETE" "_COMPLETE" = true ∧
      (run baseTemplate exCfg exEnvRollback).outcome =
        .err (.stackNotCreated "spotty-instance-MyProject") := by
  decide

end Spotty
